import Mathlib

/-!
# Provider selection and pricing resolution of `cloud/provider.go`

A shallow embedding of the default pricing resolver (`CustomProvider`), of the
pricing configuration record and its partial-update mechanism, of the provider
selector `NewProvider` and of the cluster metadata store, followed by theorems
about them.

Modelling conventions.

* Go strings are Unicode text (`String`).  Every string the program handles is
  a literal, decoded JSON or a label, so it is valid UTF-8.
* A Go map indexed only by key (`Pricing`, `Labels`) is a function
  `String → Option V`; `none` is an absent key.  The values of `Pricing` are
  pointers to `NodePrice`; the only assignments to that map, in
  `DownloadPricingData`, store addresses of fresh struct literals, so an entry
  that is present is never nil and is represented by the value it points to.
* Locks are not modelled: every operation is taken as one atomic step.
* The file system is an explicit `Storage` value threaded through the
  operations that touch it.  The bytes of a file are represented by the JSON
  document they encode (`FileData`); `encoding/json` is modelled on that level,
  its behaviour on the record being fixed by the struct tags of `CustomPricing`.
* The case tables of package `unicode` are not part of the repository: the
  title-case mapping beyond ASCII is a parameter (`TitleTable`).
* The database is an explicit `ClusterDB` value: the rows of table `names`, the
  statements received so far, and which statements fail for reasons outside
  the table.
-/

namespace CostModel

/-! ## Results of Go calls -/

/-- Go `error` values that the modelled functions return. -/
inductive GoError where
  /-- Failure of `os.Stat` with an error other than "does not exist". -/
  | stat
  /-- Failure of `os.Open` or `ioutil.ReadAll`. -/
  | read
  /-- Failure of `json.Unmarshal`: the bytes are not valid JSON. -/
  | jsonSyntax
  /-- Failure of `json.Unmarshal`: a JSON value does not fit the Go type. -/
  | jsonType
  /-- Failure of `ioutil.WriteFile`. -/
  | write
  /-- An error built by `fmt.Errorf` or `errors.New`, with its message. -/
  | errorf (msg : String)
  /-- An error of a collaborator (request decoding, node listing), with its message. -/
  | external (msg : String)
  deriving DecidableEq, Repr

/-- Run-time panics the modelled code can raise. -/
inductive Panic where
  /-- A field is read through a nil pointer. -/
  | nilDereference
  /-- A slice is indexed past its length. -/
  | indexOutOfRange
  deriving DecidableEq, Repr

/-- Outcome of a Go call of type `(T, error)`: a value with a nil error, a
non-nil error, or a panic that unwinds the call. -/
inductive Outcome (α : Type) where
  | ok (a : α)
  | error (e : GoError)
  | panic (p : Panic)
  deriving DecidableEq, Repr

deriving instance DecidableEq for Except

/-! ## Go maps read and assigned by key -/

/-- A Go `map[string]V` as far as indexing and assignment go. -/
abbrev GoMap (V : Type) := String → Option V

/-- The map `make(map[string]V)`; a nil map reads the same. -/
def GoMap.empty {V : Type} : GoMap V := fun _ => none

/-- The assignment `m[k] = v`. -/
def GoMap.insert {V : Type} (m : GoMap V) (k : String) (v : V) : GoMap V :=
  fun k' => if k' = k then some v else m k'

/-- The expression `m[k]` of a `map[string]string`: the zero value `""` when
the key is absent. -/
def GoMap.index (m : GoMap String) (k : String) : String :=
  match m k with
  | some v => v
  | none => ""

/-! ## The pricing record `CustomPricing` -/

/-- The Go struct `CustomPricing`; every field is a string. -/
structure CustomPricing where
  Provider : String := ""
  Description : String := ""
  CPU : String := ""
  SpotCPU : String := ""
  RAM : String := ""
  SpotRAM : String := ""
  GPU : String := ""
  SpotGPU : String := ""
  Storage : String := ""
  ZoneNetworkEgress : String := ""
  RegionNetworkEgress : String := ""
  InternetNetworkEgress : String := ""
  SpotLabel : String := ""
  SpotLabelValue : String := ""
  GpuLabel : String := ""
  GpuLabelValue : String := ""
  ServiceKeyName : String := ""
  ServiceKeySecret : String := ""
  SpotDataRegion : String := ""
  SpotDataBucket : String := ""
  SpotDataPrefix : String := ""
  ProjectID : String := ""
  AthenaBucketName : String := ""
  AthenaRegion : String := ""
  AthenaDatabase : String := ""
  AthenaTable : String := ""
  BillingDataDataset : String := ""
  CustomPricesEnabled : String := ""
  AzureSubscriptionID : String := ""
  AzureClientID : String := ""
  AzureClientSecret : String := ""
  AzureTenantID : String := ""
  CurrencyCode : String := ""
  Discount : String := ""
  ClusterName : String := ""
  deriving DecidableEq, Repr

/-- The fields of `CustomPricing`, in declaration order: what `reflect` and
`encoding/json` enumerate. -/
inductive Field where
  | Provider | Description | CPU | SpotCPU | RAM | SpotRAM | GPU | SpotGPU
  | Storage | ZoneNetworkEgress | RegionNetworkEgress | InternetNetworkEgress
  | SpotLabel | SpotLabelValue | GpuLabel | GpuLabelValue
  | ServiceKeyName | ServiceKeySecret | SpotDataRegion | SpotDataBucket
  | SpotDataPrefix | ProjectID | AthenaBucketName | AthenaRegion
  | AthenaDatabase | AthenaTable | BillingDataDataset | CustomPricesEnabled
  | AzureSubscriptionID | AzureClientID | AzureClientSecret | AzureTenantID
  | CurrencyCode | Discount | ClusterName
  deriving DecidableEq, Repr

/-- All fields, in declaration order. -/
def Field.all : List Field :=
  [.Provider, .Description, .CPU, .SpotCPU, .RAM, .SpotRAM, .GPU, .SpotGPU,
   .Storage, .ZoneNetworkEgress, .RegionNetworkEgress, .InternetNetworkEgress,
   .SpotLabel, .SpotLabelValue, .GpuLabel, .GpuLabelValue,
   .ServiceKeyName, .ServiceKeySecret, .SpotDataRegion, .SpotDataBucket,
   .SpotDataPrefix, .ProjectID, .AthenaBucketName, .AthenaRegion,
   .AthenaDatabase, .AthenaTable, .BillingDataDataset, .CustomPricesEnabled,
   .AzureSubscriptionID, .AzureClientID, .AzureClientSecret, .AzureTenantID,
   .CurrencyCode, .Discount, .ClusterName]

/-- The Go name of a field, as `reflect.Value.FieldByName` matches it. -/
def Field.goName : Field → String
  | .Provider => "Provider"
  | .Description => "Description"
  | .CPU => "CPU"
  | .SpotCPU => "SpotCPU"
  | .RAM => "RAM"
  | .SpotRAM => "SpotRAM"
  | .GPU => "GPU"
  | .SpotGPU => "SpotGPU"
  | .Storage => "Storage"
  | .ZoneNetworkEgress => "ZoneNetworkEgress"
  | .RegionNetworkEgress => "RegionNetworkEgress"
  | .InternetNetworkEgress => "InternetNetworkEgress"
  | .SpotLabel => "SpotLabel"
  | .SpotLabelValue => "SpotLabelValue"
  | .GpuLabel => "GpuLabel"
  | .GpuLabelValue => "GpuLabelValue"
  | .ServiceKeyName => "ServiceKeyName"
  | .ServiceKeySecret => "ServiceKeySecret"
  | .SpotDataRegion => "SpotDataRegion"
  | .SpotDataBucket => "SpotDataBucket"
  | .SpotDataPrefix => "SpotDataPrefix"
  | .ProjectID => "ProjectID"
  | .AthenaBucketName => "AthenaBucketName"
  | .AthenaRegion => "AthenaRegion"
  | .AthenaDatabase => "AthenaDatabase"
  | .AthenaTable => "AthenaTable"
  | .BillingDataDataset => "BillingDataDataset"
  | .CustomPricesEnabled => "CustomPricesEnabled"
  | .AzureSubscriptionID => "AzureSubscriptionID"
  | .AzureClientID => "AzureClientID"
  | .AzureClientSecret => "AzureClientSecret"
  | .AzureTenantID => "AzureTenantID"
  | .CurrencyCode => "CurrencyCode"
  | .Discount => "Discount"
  | .ClusterName => "ClusterName"

/-- The member name of a field in the JSON form: the name in its `json` tag. -/
def Field.jsonName : Field → String
  | .Provider => "provider"
  | .Description => "description"
  | .CPU => "CPU"
  | .SpotCPU => "spotCPU"
  | .RAM => "RAM"
  | .SpotRAM => "spotRAM"
  | .GPU => "GPU"
  | .SpotGPU => "spotGPU"
  | .Storage => "storage"
  | .ZoneNetworkEgress => "zoneNetworkEgress"
  | .RegionNetworkEgress => "regionNetworkEgress"
  | .InternetNetworkEgress => "internetNetworkEgress"
  | .SpotLabel => "spotLabel"
  | .SpotLabelValue => "spotLabelValue"
  | .GpuLabel => "gpuLabel"
  | .GpuLabelValue => "gpuLabelValue"
  | .ServiceKeyName => "awsServiceKeyName"
  | .ServiceKeySecret => "awsServiceKeySecret"
  | .SpotDataRegion => "awsSpotDataRegion"
  | .SpotDataBucket => "awsSpotDataBucket"
  | .SpotDataPrefix => "awsSpotDataPrefix"
  | .ProjectID => "projectID"
  | .AthenaBucketName => "athenaBucketName"
  | .AthenaRegion => "athenaRegion"
  | .AthenaDatabase => "athenaDatabase"
  | .AthenaTable => "athenaTable"
  | .BillingDataDataset => "billingDataDataset"
  | .CustomPricesEnabled => "customPricesEnabled"
  | .AzureSubscriptionID => "azureSubscriptionID"
  | .AzureClientID => "azureClientID"
  | .AzureClientSecret => "azureClientSecret"
  | .AzureTenantID => "azureTenantID"
  | .CurrencyCode => "currencyCode"
  | .Discount => "discount"
  | .ClusterName => "clusterName"

/-- Whether the `json` tag of a field carries `omitempty`. -/
def Field.omitEmpty : Field → Bool
  | .SpotLabel | .SpotLabelValue | .GpuLabel | .GpuLabelValue
  | .ServiceKeyName | .ServiceKeySecret | .SpotDataRegion | .SpotDataBucket
  | .SpotDataPrefix | .ProjectID | .BillingDataDataset => true
  | _ => false

/-- Reading a field selected at run time. -/
def CustomPricing.get (c : CustomPricing) : Field → String
  | .Provider => c.Provider
  | .Description => c.Description
  | .CPU => c.CPU
  | .SpotCPU => c.SpotCPU
  | .RAM => c.RAM
  | .SpotRAM => c.SpotRAM
  | .GPU => c.GPU
  | .SpotGPU => c.SpotGPU
  | .Storage => c.Storage
  | .ZoneNetworkEgress => c.ZoneNetworkEgress
  | .RegionNetworkEgress => c.RegionNetworkEgress
  | .InternetNetworkEgress => c.InternetNetworkEgress
  | .SpotLabel => c.SpotLabel
  | .SpotLabelValue => c.SpotLabelValue
  | .GpuLabel => c.GpuLabel
  | .GpuLabelValue => c.GpuLabelValue
  | .ServiceKeyName => c.ServiceKeyName
  | .ServiceKeySecret => c.ServiceKeySecret
  | .SpotDataRegion => c.SpotDataRegion
  | .SpotDataBucket => c.SpotDataBucket
  | .SpotDataPrefix => c.SpotDataPrefix
  | .ProjectID => c.ProjectID
  | .AthenaBucketName => c.AthenaBucketName
  | .AthenaRegion => c.AthenaRegion
  | .AthenaDatabase => c.AthenaDatabase
  | .AthenaTable => c.AthenaTable
  | .BillingDataDataset => c.BillingDataDataset
  | .CustomPricesEnabled => c.CustomPricesEnabled
  | .AzureSubscriptionID => c.AzureSubscriptionID
  | .AzureClientID => c.AzureClientID
  | .AzureClientSecret => c.AzureClientSecret
  | .AzureTenantID => c.AzureTenantID
  | .CurrencyCode => c.CurrencyCode
  | .Discount => c.Discount
  | .ClusterName => c.ClusterName

/-- Assigning a field selected at run time (`reflect.Value.Set`). -/
def CustomPricing.set (c : CustomPricing) (f : Field) (v : String) : CustomPricing :=
  match f with
  | .Provider => { c with Provider := v }
  | .Description => { c with Description := v }
  | .CPU => { c with CPU := v }
  | .SpotCPU => { c with SpotCPU := v }
  | .RAM => { c with RAM := v }
  | .SpotRAM => { c with SpotRAM := v }
  | .GPU => { c with GPU := v }
  | .SpotGPU => { c with SpotGPU := v }
  | .Storage => { c with Storage := v }
  | .ZoneNetworkEgress => { c with ZoneNetworkEgress := v }
  | .RegionNetworkEgress => { c with RegionNetworkEgress := v }
  | .InternetNetworkEgress => { c with InternetNetworkEgress := v }
  | .SpotLabel => { c with SpotLabel := v }
  | .SpotLabelValue => { c with SpotLabelValue := v }
  | .GpuLabel => { c with GpuLabel := v }
  | .GpuLabelValue => { c with GpuLabelValue := v }
  | .ServiceKeyName => { c with ServiceKeyName := v }
  | .ServiceKeySecret => { c with ServiceKeySecret := v }
  | .SpotDataRegion => { c with SpotDataRegion := v }
  | .SpotDataBucket => { c with SpotDataBucket := v }
  | .SpotDataPrefix => { c with SpotDataPrefix := v }
  | .ProjectID => { c with ProjectID := v }
  | .AthenaBucketName => { c with AthenaBucketName := v }
  | .AthenaRegion => { c with AthenaRegion := v }
  | .AthenaDatabase => { c with AthenaDatabase := v }
  | .AthenaTable => { c with AthenaTable := v }
  | .BillingDataDataset => { c with BillingDataDataset := v }
  | .CustomPricesEnabled => { c with CustomPricesEnabled := v }
  | .AzureSubscriptionID => { c with AzureSubscriptionID := v }
  | .AzureClientID => { c with AzureClientID := v }
  | .AzureClientSecret => { c with AzureClientSecret := v }
  | .AzureTenantID => { c with AzureTenantID := v }
  | .CurrencyCode => { c with CurrencyCode := v }
  | .Discount => { c with Discount := v }
  | .ClusterName => { c with ClusterName := v }

/-- The field that `reflect.Value.FieldByName(name)` selects: the one whose Go
name is exactly `name`, if any. -/
def fieldByName (name : String) : Option Field :=
  Field.all.find? (fun f => f.goName == name)

/-- The call `SetCustomPricingField(obj, name, value)`: the record after the
call, or the error.  Every field of the struct is exported, addressable and of type
`string`, so the `CanSet` and type checks pass whenever the field exists. -/
def SetCustomPricingField (obj : CustomPricing) (name : String) (value : String) :
    Except GoError CustomPricing :=
  match fieldByName name with
  | none => .error (.errorf ("No such field: " ++ name ++ " in obj"))
  | some f => .ok (obj.set f value)

/-! ## The JSON form of the record -/

/-- A JSON value as a member of an object, as far as decoding into a string
field tells values apart. -/
inductive JVal where
  /-- The literal `null`. -/
  | null
  /-- A JSON string. -/
  | str (s : String)
  /-- A boolean, a number, an array or an object. -/
  | other
  deriving DecidableEq, Repr

/-- The bytes of a file, represented by the JSON document they encode. -/
inductive FileData where
  /-- Bytes that are not one valid JSON value. -/
  | malformed
  /-- The JSON value `null`. -/
  | null
  /-- A JSON value that is neither `null` nor an object. -/
  | scalar
  /-- A JSON object: its members in textual order. -/
  | object (members : List (String × JVal))
  deriving DecidableEq, Repr

/-- The call `json.Marshal(c)` for a `*CustomPricing`: one member per field, in
declaration order, under the name of its tag; a field tagged `omitempty` is
left out when it holds the empty string.  Marshalling a struct of strings
cannot fail. -/
def Marshal (c : CustomPricing) : FileData :=
  .object ((Field.all.filter (fun f => !(f.omitEmpty && c.get f == ""))).map
    (fun f => (f.jsonName, JVal.str (c.get f))))

/-- Case folding of one rune as `encoding/json` applies it when it matches a
member name against a field name made of ASCII letters: ASCII letters fold to
lower case, the Kelvin sign folds to `k` and the long s to `s`. -/
def foldRune (c : Char) : Char :=
  if c = Char.ofNat 0x212A then 'k'
  else if c = Char.ofNat 0x17F then 's'
  else c.toLower

/-- Case-insensitive match of a member name `key` against a tag name. -/
def equalFold (tag key : String) : Bool :=
  tag.toList.map foldRune == key.toList.map foldRune

/-- The field that `json.Unmarshal` stores a member named `key` into: the first
field whose tag name is exactly `key`, otherwise the first whose tag name
matches it case-insensitively, otherwise none (the member is skipped). -/
def fieldByJSONName (key : String) : Option Field :=
  match Field.all.find? (fun f => f.jsonName == key) with
  | some f => some f
  | none => Field.all.find? (fun f => equalFold f.jsonName key)

/-- Decoding of one object member into the record: a string is stored, `null`
leaves the field as it is, any other value records a type error (the first one
is kept) and decoding goes on. -/
def decodeMember (acc : CustomPricing × Option GoError) (m : String × JVal) :
    CustomPricing × Option GoError :=
  match fieldByJSONName m.1 with
  | none => acc
  | some f =>
    match m.2 with
    | .str s => (acc.1.set f s, acc.2)
    | .null => acc
    | .other => (acc.1, match acc.2 with | some e => some e | none => some .jsonType)

/-- The call `json.Unmarshal(bytes, customPricing)` into the fresh record
`&CustomPricing{}`. -/
def Unmarshal (d : FileData) : Except GoError CustomPricing :=
  match d with
  | .malformed => .error .jsonSyntax
  | .null => .ok {}
  | .scalar => .error .jsonType
  | .object ms =>
    match ms.foldl decodeMember ({}, none) with
    | (c, none) => .ok c
    | (_, some e) => .error e

/-! ## Durable storage -/

/-- What the file system holds at one path. -/
inductive FileState where
  /-- No such file: `os.Stat` reports `IsNotExist`. -/
  | absent
  /-- A path on which `os.Stat` fails with another error. -/
  | statFails
  /-- A path that `os.Stat` finds but that cannot be opened or read. -/
  | unreadable
  /-- A readable file and its contents. -/
  | data (d : FileData)
  deriving DecidableEq, Repr

/-- How far a call of `ioutil.WriteFile` that returns an error got. -/
inductive WriteFailure where
  /-- The file could not be opened or created: it is as it was. -/
  | atOpen
  /-- The file was opened, which truncates it, and the bytes were written in
  part at most: what the file holds is not a complete JSON value. -/
  | afterOpen
  /-- All bytes were written and the error comes from closing the file. -/
  | atClose
  deriving DecidableEq, Repr

/-- The part of the process environment the pricing code reads and writes. -/
structure Storage where
  /-- The value of the environment variable `CONFIG_PATH`. -/
  CONFIG_PATH : String
  /-- The state of every path. -/
  files : String → FileState
  /-- The paths at which `ioutil.WriteFile` returns an error. -/
  writeFails : String → Bool
  /-- How far a write that returns an error at a path gets. -/
  writeFailure : String → WriteFailure := fun _ => .atOpen

/-- The directory the configuration lives in: `CONFIG_PATH`, or `/models/`
when that is empty. -/
def Storage.path (st : Storage) : String :=
  if st.CONFIG_PATH = "" then "/models/" else st.CONFIG_PATH

/-- A successful `ioutil.WriteFile(path, bytes, 0644)`. -/
def Storage.write (st : Storage) (path : String) (d : FileData) : Storage :=
  { st with files := fun p => if p = path then .data d else st.files p }

/-- A call `ioutil.WriteFile(path, bytes, 0644)` that returns an error: the file
is untouched when it could not be opened, left truncated when the error came
after the open, and holds the bytes when the error came from the close. -/
def Storage.failedWrite (st : Storage) (path : String) (d : FileData) : Storage :=
  match st.writeFailure path with
  | .atOpen => st
  | .afterOpen => st.write path .malformed
  | .atClose => st.write path d

/-- The record `GetDefaultPricingData` synthesises when the file is missing. -/
def defaultPricing (fname : String) : CustomPricing :=
  { Provider := fname
    Description := "Default prices based on GCP us-central1"
    CPU := "0.031611"
    SpotCPU := "0.006655"
    RAM := "0.004237"
    SpotRAM := "0.000892"
    GPU := "0.95"
    Storage := "0.00005479452"
    ZoneNetworkEgress := "0.01"
    RegionNetworkEgress := "0.01"
    InternetNetworkEgress := "0.12"
    CustomPricesEnabled := "false" }

/-- The call `GetDefaultPricingData(fname)`: the storage after the call and the
result. -/
def GetDefaultPricingData (st : Storage) (fname : String) :
    Storage × Except GoError CustomPricing :=
  let path := st.path ++ fname
  match st.files path with
  | .data d => (st, Unmarshal d)
  | .unreadable => (st, .error .read)
  | .absent =>
    let c := defaultPricing fname
    if st.writeFails path then (st.failedWrite path (Marshal c), .error .write)
    else (st.write path (Marshal c), .ok c)
  | .statFails => (st, .error .stat)

/-! ## The pricing cache and its keys -/

/-- The Go struct `NodePrice`: one entry of the pricing cache. -/
structure NodePrice where
  CPU : String := ""
  RAM : String := ""
  GPU : String := ""
  deriving DecidableEq, Repr

/-- The Go struct `Node`: the prices a provider reports for a node. -/
structure Node where
  Cost : String := ""
  VCPU : String := ""
  VCPUCost : String := ""
  RAM : String := ""
  RAMBytes : String := ""
  RAMCost : String := ""
  Storage : String := ""
  StorageCost : String := ""
  UsesBaseCPUPrice : Bool := false
  BaseCPUPrice : String := ""
  BaseRAMPrice : String := ""
  BaseGPUPrice : String := ""
  UsageType : String := ""
  GPU : String := ""
  GPUName : String := ""
  GPUCost : String := ""
  deriving DecidableEq, Repr

/-- A value of the Go interface `Key`, given by what its three methods
return. -/
structure Key where
  ID : String
  Features : String
  GPUType : String
  deriving DecidableEq, Repr

/-- The Go struct `customProviderKey`. -/
structure customProviderKey where
  SpotLabel : String
  SpotLabelValue : String
  GPULabel : String
  GPULabelValue : String
  Labels : GoMap String

/-- The method `customProviderKey.GPUType`. -/
def customProviderKey.GPUType (c : customProviderKey) : String :=
  match c.Labels c.GPULabel with
  | some t => t
  | none => ""

/-- The method `customProviderKey.ID`. -/
def customProviderKey.ID (_c : customProviderKey) : String := ""

/-- The method `customProviderKey.Features`. -/
def customProviderKey.Features (c : customProviderKey) : String :=
  if c.Labels.index c.SpotLabel ≠ "" ∧ c.Labels.index c.SpotLabel = c.SpotLabelValue then
    "default,spot"
  else
    "default"

/-- A `*customProviderKey` seen through the interface `Key`. -/
def customProviderKey.toKey (c : customProviderKey) : Key :=
  { ID := c.ID, Features := c.Features, GPUType := c.GPUType }

/-- The Go struct `CustomProvider` without its client handle and its lock.
`Pricing` is `none` while the map is nil. -/
structure CustomProvider where
  Pricing : Option (GoMap NodePrice) := none
  SpotLabel : String := ""
  SpotLabelValue : String := ""
  GPULabel : String := ""
  GPULabelValue : String := ""

/-- The two-result index expression `c.Pricing[k]`: the entry, or `none` when
the key is absent (also when the map is nil). -/
def CustomProvider.entry (c : CustomProvider) (k : String) : Option NodePrice :=
  match c.Pricing with
  | none => none
  | some m => m k

/-- The method `CustomProvider.GetKey`. -/
def CustomProvider.GetKey (c : CustomProvider) (labels : GoMap String) : Key :=
  customProviderKey.toKey
    { SpotLabel := c.SpotLabel
      SpotLabelValue := c.SpotLabelValue
      GPULabel := c.GPULabel
      GPULabelValue := c.GPULabelValue
      Labels := labels }

/-- The method `CustomProvider.DownloadPricingData`: the storage and the
provider after the call, and the returned error (`none` for nil). -/
def CustomProvider.DownloadPricingData (c : CustomProvider) (st : Storage) :
    Storage × CustomProvider × Option GoError :=
  let m : GoMap NodePrice :=
    match c.Pricing with
    | none => GoMap.empty
    | some m => m
  let c := { c with Pricing := some m }
  match GetDefaultPricingData st "default.json" with
  | (st', .error err) => (st', c, some err)
  | (st', .ok p) =>
    let m := m.insert "default" { CPU := p.CPU, RAM := p.RAM }
    let m := m.insert "default,spot" { CPU := p.SpotCPU, RAM := p.SpotRAM }
    let m := m.insert "default,gpu" { CPU := p.CPU, RAM := p.RAM, GPU := p.GPU }
    (st', { Pricing := some m
            SpotLabel := p.SpotLabel
            SpotLabelValue := p.SpotLabelValue
            GPULabel := p.GpuLabel
            GPULabelValue := p.GpuLabelValue }, none)

/-- The method `CustomProvider.NodePricing`.  Its error result is always nil;
reading the fields of `c.Pricing[k]` panics when that entry is absent, the
index expression then yielding a nil pointer. -/
def CustomProvider.NodePricing (c : CustomProvider) (key : Key) : Outcome Node :=
  let k := key.Features
  let k := if (c.entry k).isSome then k else "default"
  let kg : String × String := if key.GPUType ≠ "" then (k ++ ",gpu", "1") else (k, "")
  match c.entry kg.1 with
  | none => .panic .nilDereference
  | some e => .ok { VCPUCost := e.CPU, RAMCost := e.RAM, GPUCost := e.GPU, GPU := kg.2 }

/-! ## The configuration patch -/

/-- The predicate `isSeparator` of package `strings`: ASCII letters, digits and
the underscore are not separators, every other ASCII rune is; beyond ASCII the
separators are the white-space runes. -/
def isSeparator (r : Char) : Bool :=
  if r.val ≤ 0x7F then
    !(r.isAlphanum || r == '_')
  else
    [0x85, 0xA0, 0x1680, 0x2000, 0x2001, 0x2002, 0x2003, 0x2004, 0x2005, 0x2006,
     0x2007, 0x2008, 0x2009, 0x200A, 0x2028, 0x2029, 0x202F, 0x205F, 0x3000].contains r.toNat

/-- The title-case mapping of the runes beyond ASCII: what `unicode.ToTitle`
looks up in the Unicode tables of the Go release the program is built with
(`To(TitleCase, r)`).  The tables are not part of the repository; they are a
parameter of `strings.Title` and of everything that calls it. -/
abbrev TitleTable := Char → Char

/-- The function `unicode.ToTitle`: an ASCII rune is put in upper case when it
is a lower-case letter and returned as it is otherwise; any other rune is
looked up in the table. -/
def ToTitle (tbl : TitleTable) (r : Char) : Char :=
  if r.val ≤ 0x7F then r.toUpper else tbl r

/-- The loop of `strings.Title`: a rune that follows a separator is put in
title case. -/
def titleRunes (tbl : TitleTable) (prev : Char) : List Char → List Char
  | [] => []
  | r :: rs => (if isSeparator prev then ToTitle tbl r else r) :: titleRunes tbl r rs

/-- The function `strings.Title`. -/
def Title (tbl : TitleTable) (s : String) : String :=
  String.mk (titleRunes tbl ' ' s.toList)

/-- The loop `for k, v := range a` of `UpdateConfig`, over the entries of the
map `a` in the order the iteration visits them. -/
def patchLoop (tbl : TitleTable) (c : CustomPricing) :
    List (String × String) → Except GoError CustomPricing
  | [] => .ok c
  | (k, v) :: rest =>
    match SetCustomPricingField c (Title tbl k) v with
    | .error err => .error err
    | .ok c' => patchLoop tbl c' rest

/-- The method `CustomProvider.UpdateConfig`: the storage and the provider
after the call, and the result.  The argument `a` is what decoding the request
body `r` into the map `a` gives: the decoding error, or the entries of the map
in the order `range a` visits them.  The deferred `DownloadPricingData` runs
when the function returns after the write; its error is dropped. -/
def CustomProvider.UpdateConfig (cprov : CustomProvider) (tbl : TitleTable) (st : Storage)
    (a : Except GoError (List (String × String))) (_updateType : String) :
    Storage × CustomProvider × Except GoError CustomPricing :=
  match GetDefaultPricingData st "default.json" with
  | (st1, .error err) => (st1, cprov, .error err)
  | (st1, .ok c) =>
    match a with
    | .error err => (st1, cprov, .error err)
    | .ok entries =>
      match patchLoop tbl c entries with
      | .error err => (st1, cprov, .error err)
      | .ok c' =>
        let configPath := st1.path ++ "default.json"
        if st1.writeFails configPath then
          (st1.failedWrite configPath (Marshal c'), cprov, .error .write)
        else
          let st2 := st1.write configPath (Marshal c')
          let r := cprov.DownloadPricingData st2
          (r.1, r.2.1, .ok c')

/-- The method `CustomProvider.GetConfig`. -/
def CustomProvider.GetConfig (_c : CustomProvider) (st : Storage) :
    Storage × Except GoError CustomPricing :=
  GetDefaultPricingData st "default.json"

/-! ## Provider selection -/

/-- A node of the cluster, as far as `NewProvider` reads it. -/
structure K8sNode where
  /-- The field `Spec.ProviderID`. -/
  ProviderID : String
  deriving DecidableEq, Repr

/-- The environment signals `NewProvider` inspects. -/
structure Cluster where
  /-- The answer of the metadata probe `metadata.OnGCE()`. -/
  OnGCE : Bool
  /-- The result of listing the nodes: the error, or `nodes.Items`. -/
  Nodes : Except GoError (List K8sNode)

/-- The provider variants `NewProvider` can return, each without its client
handle. -/
inductive Provider where
  | GCP (APIKey : String)
  | AWS
  | Azure
  | Custom (c : CustomProvider)

/-- The lower-case form of a rune (`unicode.ToLower`) as far as ASCII text can
tell: ASCII letters, and the two other runes whose lower case is an ASCII
letter (Kelvin sign, capital I with dot above), are mapped exactly; the lower
case of any other rune is not ASCII, and the rune is kept as it is. -/
def ToLowerRune (r : Char) : Char :=
  if r = Char.ofNat 0x212A then 'k'
  else if r = Char.ofNat 0x130 then 'i'
  else r.toLower

/-- The function `strings.ToLower`. -/
def ToLower (s : String) : String :=
  String.mk (s.toList.map ToLowerRune)

/-- The function `strings.HasPrefix`. -/
def HasPrefix (s pre : String) : Bool :=
  pre.toList.isPrefixOf s.toList

/-- The function `NewProvider`.  The node list is asked for only when the
metadata probe answers no; `nodes.Items[0]` panics on an empty list. -/
def NewProvider (env : Cluster) (apiKey : String) : Outcome Provider :=
  if env.OnGCE then
    if apiKey = "" then .error (.errorf "Supply a GCP Key to start getting data")
    else .ok (.GCP apiKey)
  else
    match env.Nodes with
    | .error err => .error err
    | .ok items =>
      match items with
      | [] => .panic .indexOutOfRange
      | first :: _ =>
        let provider := ToLower first.ProviderID
        if HasPrefix provider "aws" then .ok .AWS
        else if HasPrefix provider "azure" then .ok .Azure
        else .ok (.Custom {})

/-- The reading of "the identifier starts with the token in any letter case":
the first runes of `id`, as many as the token has, are the letters of the
token, each in upper or in lower case. -/
def startsWithAnyCase (tok id : String) : Bool :=
  (id.toList.take tok.length).map Char.toLower == tok.toList

/-- A letter `c` such that the runes `strings.ToLower` maps to `c` are its own two
ASCII forms; used to relate the test in `NewProvider` to `startsWithAnyCase`. -/
def lowersOnlyFromASCII (c : Char) : Prop :=
  ∀ r : Char, ToLowerRune r = c ↔ r.toLower = c

/-! ## Volume pricing -/

/-- The Go struct `PV`: the prices a provider reports for a volume.
`Parameters` is `none` while the map is nil. -/
structure PV where
  Cost : String := ""
  CostPerIO : String := ""
  Class : String := ""
  Size : String := ""
  Region : String := ""
  Parameters : Option (GoMap String) := none

/-- A value of the Go interface `PVKey`, given by what its two methods
return. -/
structure PVKey where
  Features : String
  GetStorageClass : String
  deriving DecidableEq, Repr

/-- The method `CustomProvider.PVPricing`: the storage after the call and the
result.  The record is loaded from the file named `default`. -/
def CustomProvider.PVPricing (_c : CustomProvider) (st : Storage) (_pvk : PVKey) :
    Storage × Except GoError PV :=
  match GetDefaultPricingData st "default" with
  | (st', .error err) => (st', .error err)
  | (st', .ok cpricing) => (st', .ok { Cost := cpricing.Storage })

/-- The cost in a result of `PVPricing`, or its error. -/
def pvCost (r : Except GoError PV) : Except GoError String :=
  match r with
  | .error err => .error err
  | .ok pv => .ok pv.Cost

/-! ## The cluster metadata store -/

/-- A statement sent to the database through `db.Query` or `db.Exec`. -/
inductive Stmt where
  /-- The query `SELECT cluster_id, cluster_name FROM names WHERE cluster_id = ?`
  with its argument. -/
  | select (cluster_id : String)
  /-- The statement `CREATE TABLE IF NOT EXISTS names (...)`. -/
  | createTable
  /-- The statement `INSERT INTO names (cluster_id, cluster_name) VALUES ($1, $2)`
  with its arguments. -/
  | insert (cluster_id cluster_name : String)
  deriving DecidableEq, Repr

/-- The database behind the cluster metadata functions: the one the
environment variables `REMOTE_WRITE_PASSWORD` and `SQL_ADDRESS` lead to.
Strings are taken to fit the column width of 255 characters. -/
structure ClusterDB where
  /-- Whether `sql.Open` returns an error (the driver is not registered); the
  handle it returns is then nil. -/
  openFails : Bool
  /-- Whether the statement sent as number `i` (counted from zero) fails for a
  reason outside the table: the server cannot be reached or rejects it. -/
  unavailable : Nat → Bool
  /-- The rows of table `names` in insertion order, each a `cluster_id` and a
  nullable `cluster_name`; `none` while the table does not exist. -/
  names : Option (List (String × Option String))
  /-- The statements sent so far, oldest first. -/
  log : List Stmt

/-- The database after one more statement has been sent to it. -/
def ClusterDB.send (db : ClusterDB) (s : Stmt) : ClusterDB :=
  { db with log := db.log ++ [s] }

/-- The loop `for rows.Next()` of `GetClusterMeta` over the rows the query
returned: each row is scanned into the two variables, the last one stays; a
NULL name cannot be scanned into a string. -/
def scanRows : List (String × Option String) → String × String → Except GoError (String × String)
  | [], acc => .ok acc
  | (_, none) :: _, _ => .error (.external "sql: Scan error: converting NULL to string is unsupported")
  | (id, some name) :: rest, _ => scanRows rest (id, name)

/-- The function `GetClusterMeta`: the database after the call and the result.
The error of `sql.Open` is not looked at; with a nil handle `db.Query` panics.
The query fails when the server is unavailable or the table does not exist. -/
def GetClusterMeta (db : ClusterDB) (cluster_id : String) : ClusterDB × Outcome (String × String) :=
  if db.openFails then (db, .panic .nilDereference)
  else
    let db1 := db.send (.select cluster_id)
    if db.unavailable db.log.length then (db1, .error (.external "query failed"))
    else
      match db.names with
      | none => (db1, .error (.external "relation \"names\" does not exist"))
      | some rows =>
        match scanRows (rows.filter (fun row => row.1 = cluster_id)) ("", "") with
        | .error err => (db1, .error err)
        | .ok found => (db1, .ok found)

/-- The function `CreateClusterMeta`: the database after the call and the
returned error (`none` for nil).  The table is created when it does not exist
(the only statement of `createTableStatements`); the insert fails when the
server is unavailable or a row with this `cluster_id` exists (primary key). -/
def CreateClusterMeta (db : ClusterDB) (cluster_id cluster_name : String) :
    ClusterDB × Option GoError :=
  if db.openFails then (db, some (.external "sql: unknown driver"))
  else
    let db1 := db.send .createTable
    if db.unavailable db.log.length then (db1, some (.external "exec failed"))
    else
      let rows : List (String × Option String) :=
        match db.names with
        | none => []
        | some rows => rows
      let db2 := { db1 with names := some rows }
      let db3 := db2.send (.insert cluster_id cluster_name)
      if db.unavailable db2.log.length then (db3, some (.external "exec failed"))
      else if rows.any (fun row => row.1 = cluster_id) then
        (db3, some (.external "duplicate key value violates unique constraint"))
      else
        ({ db3 with names := some (rows ++ [(cluster_id, some cluster_name)]) }, none)

/-- The function `GetOrCreateClusterMeta`: the database after the call and the
result.  After a failed lookup `id` and `name` are empty and `err` is set, so
both `if` statements are entered in turn. -/
def GetOrCreateClusterMeta (db : ClusterDB) (cluster_id cluster_name : String) :
    ClusterDB × Outcome (String × String) :=
  match GetClusterMeta db cluster_id with
  | (db1, .panic p) => (db1, .panic p)
  | (db1, looked) =>
    let id : String := match looked with | .ok found => found.1 | _ => ""
    let name : String := match looked with | .ok found => found.2 | _ => ""
    let failed : Bool := match looked with | .ok _ => false | _ => true
    match (if failed then CreateClusterMeta db1 cluster_id cluster_name else (db1, none)) with
    | (db2, some err) => (db2, .error err)
    | (db2, none) =>
      match (if id = "" then CreateClusterMeta db2 cluster_id cluster_name else (db2, none)) with
      | (db3, some err) => (db3, .error err)
      | (db3, none) => (db3, .ok (id, name))

/-- The number of `INSERT` statements among the statements sent. -/
def insertAttempts (log : List Stmt) : Nat :=
  (log.filter (fun s => match s with | .insert _ _ => true | _ => false)).length

/-- The number of calls of `CreateClusterMeta` that reached the database: each
sends the `CREATE TABLE` statement first. -/
def createCalls (log : List Stmt) : Nat :=
  (log.filter (fun s => match s with | .createTable => true | _ => false)).length

/-! ## Concrete inputs -/

/-- A storage with no file in it, `CONFIG_PATH` unset, every write succeeding. -/
def freshStorage : Storage :=
  { CONFIG_PATH := "", files := fun _ => .absent, writeFails := fun _ => false }

/-- A storage whose only file is `/models/default.json`, holding the JSON form
of `r`. -/
def storageHolding (r : CustomPricing) : Storage :=
  { CONFIG_PATH := ""
    files := fun p => if p = "/models/default.json" then .data (Marshal r) else .absent
    writeFails := fun _ => false }

/-- A storage like `storageHolding r` in which every write fails, as on a
read-only volume. -/
def readOnlyStorageHolding (r : CustomPricing) : Storage :=
  { CONFIG_PATH := ""
    files := fun p => if p = "/models/default.json" then .data (Marshal r) else .absent
    writeFails := fun _ => true }

/-- A title-case table that leaves every rune beyond ASCII as it is.  The patch
names of the concrete inputs below are ASCII, and for an ASCII name
`strings.Title` does not consult the table (`Title_of_ascii`). -/
def plainTable : TitleTable := fun r => r

/-- A pricing record that names the labels marking spot and GPU nodes. -/
def labelledPricing : CustomPricing :=
  { defaultPricing "default.json" with
    SpotLabel := "lifecycle", SpotLabelValue := "spot", GpuLabel := "accelerator" }

/-- The labels of a spot node that carries a GPU. -/
def spotGpuLabels : GoMap String :=
  fun k =>
    if k = "lifecycle" then some "spot"
    else if k = "accelerator" then some "nvidia-tesla-k80"
    else none

/-- The labels of a spot node that carries a GPU of another type. -/
def spotV100Labels : GoMap String :=
  fun k =>
    if k = "lifecycle" then some "spot"
    else if k = "accelerator" then some "nvidia-tesla-v100"
    else none

/-- The labels of an on-demand node that carries a GPU. -/
def onDemandV100Labels : GoMap String :=
  fun k => if k = "accelerator" then some "nvidia-tesla-v100" else none

/-- A fresh provider after one refresh from a storage whose record names the
spot and GPU labels. -/
def labelledProvider : CustomProvider :=
  (({} : CustomProvider).DownloadPricingData (storageHolding labelledPricing)).2.1

/-- A fresh provider after one refresh from the empty storage: its cache holds
the three tiers built from the default record. -/
def refreshedProvider : CustomProvider :=
  (({} : CustomProvider).DownloadPricingData freshStorage).2.1

/-- A provider whose cache holds an entry of its own under `legacy` and an
outdated entry under `default`. -/
def staleProvider : CustomProvider :=
  { Pricing := some (fun k =>
      if k = "legacy" then some { CPU := "1", RAM := "2", GPU := "3" }
      else if k = "default" then some { CPU := "9", RAM := "9", GPU := "9" }
      else none) }

/-- A database on a reachable server in which the table `names` does not exist
yet and no statement has been sent. -/
def freshDB : ClusterDB :=
  { openFails := false, unavailable := fun _ => false, names := none, log := [] }

/-- A database on a reachable server whose table `names` exists and holds a row
for another cluster. -/
def otherClusterDB : ClusterDB :=
  { openFails := false, unavailable := fun _ => false
    names := some [("c0", some "staging")], log := [] }

/-- A database whose table exists and is empty, on a server that rejects the
first statement sent (the lookup) and accepts the later ones. -/
def lookupRejectedDB : ClusterDB :=
  { openFails := false, unavailable := fun i => i == 0, names := some [], log := [] }

/-! ## Lemmas on the record and its fields -/

theorem Field.mem_all (f : Field) : f ∈ Field.all := by
  cases f <;> decide

theorem CustomPricing.get_set_same (c : CustomPricing) (f : Field) (v : String) :
    (c.set f v).get f = v := by
  cases f <;> rfl

theorem CustomPricing.get_set_ne (c : CustomPricing) {f g : Field} (v : String) (h : g ≠ f) :
    (c.set f v).get g = c.get g := by
  cases f <;> cases g <;> first | rfl | exact absurd rfl h

theorem CustomPricing.get_zero (f : Field) : ({} : CustomPricing).get f = "" := by
  cases f <;> rfl

theorem CustomPricing.ext_get {a b : CustomPricing} (h : ∀ f, a.get f = b.get f) : a = b := by
  cases a
  cases b
  simp only [CustomPricing.mk.injEq]
  exact ⟨h .Provider, h .Description, h .CPU, h .SpotCPU, h .RAM, h .SpotRAM, h .GPU,
    h .SpotGPU, h .Storage, h .ZoneNetworkEgress, h .RegionNetworkEgress,
    h .InternetNetworkEgress, h .SpotLabel, h .SpotLabelValue, h .GpuLabel, h .GpuLabelValue,
    h .ServiceKeyName, h .ServiceKeySecret, h .SpotDataRegion, h .SpotDataBucket,
    h .SpotDataPrefix, h .ProjectID, h .AthenaBucketName, h .AthenaRegion, h .AthenaDatabase,
    h .AthenaTable, h .BillingDataDataset, h .CustomPricesEnabled, h .AzureSubscriptionID,
    h .AzureClientID, h .AzureClientSecret, h .AzureTenantID, h .CurrencyCode, h .Discount,
    h .ClusterName⟩

theorem fieldByName_goName (f : Field) : fieldByName f.goName = some f := by
  cases f <;> decide

theorem fieldByName_eq_some {name : String} {f : Field} (h : fieldByName name = some f) :
    f.goName = name := by
  unfold fieldByName at h
  have := List.find?_some h
  simpa using this

theorem fieldByJSONName_jsonName (f : Field) : fieldByJSONName f.jsonName = some f := by
  cases f <;> decide

/-! ## Lemmas on the JSON form -/

theorem foldl_decodeMember_strings (r : CustomPricing) (fs : List Field) (c0 : CustomPricing) :
    (fs.map (fun f => (f.jsonName, JVal.str (r.get f)))).foldl decodeMember (c0, none)
      = (fs.foldl (fun c f => c.set f (r.get f)) c0, none) := by
  induction fs generalizing c0 with
  | nil => rfl
  | cons f fs ih =>
    simp only [List.map_cons, List.foldl_cons]
    have h : decodeMember (c0, none) (f.jsonName, JVal.str (r.get f))
        = (c0.set f (r.get f), none) := by
      simp [decodeMember, fieldByJSONName_jsonName]
    rw [h, ih]

theorem get_foldl_set (r : CustomPricing) (fs : List Field) (c0 : CustomPricing) (g : Field) :
    (fs.foldl (fun c f => c.set f (r.get f)) c0).get g
      = if g ∈ fs then r.get g else c0.get g := by
  induction fs generalizing c0 with
  | nil => simp
  | cons f fs ih =>
    simp only [List.foldl_cons, ih, List.mem_cons]
    by_cases hg : g ∈ fs
    · simp [hg]
    · by_cases hf : g = f
      · subst hf
        simp [hg, CustomPricing.get_set_same]
      · simp [hg, hf, CustomPricing.get_set_ne _ _ hf]

/-- Decoding the JSON form of a record gives the record back. -/
theorem Unmarshal_Marshal (r : CustomPricing) : Unmarshal (Marshal r) = .ok r := by
  have key : (Field.all.filter (fun f => !(f.omitEmpty && r.get f == ""))).foldl
      (fun c f => c.set f (r.get f)) {} = r := by
    apply CustomPricing.ext_get
    intro g
    rw [get_foldl_set]
    split
    · rfl
    · rename_i hg
      have : ¬ ((!(g.omitEmpty && r.get g == "")) = true) := by
        intro hk
        exact hg (List.mem_filter.mpr ⟨Field.mem_all g, hk⟩)
      rw [CustomPricing.get_zero]
      simp at this
      exact this.2.symm
  simp only [Marshal, Unmarshal, foldl_decodeMember_strings, key]

/-! ## Lemmas on storage -/

theorem Storage.path_write (st : Storage) (path : String) (d : FileData) :
    (st.write path d).path = st.path := rfl

theorem Storage.files_write_same (st : Storage) (path : String) (d : FileData) :
    (st.write path d).files path = .data d := by
  simp [Storage.write]

/-- Loading a file that holds the JSON form of a record returns that record and
leaves the storage as it is. -/
theorem GetDefaultPricingData_of_data (st : Storage) (fname : String) (r : CustomPricing)
    (h : st.files (st.path ++ fname) = .data (Marshal r)) :
    GetDefaultPricingData st fname = (st, .ok r) := by
  simp [GetDefaultPricingData, h, Unmarshal_Marshal]

/-- A successful load leaves behind a storage in which the file exists, and
which a second load reads without changing it. -/
theorem GetDefaultPricingData_ok_files {st st' : Storage} {fname : String} {r : CustomPricing}
    (h : GetDefaultPricingData st fname = (st', .ok r)) :
    st'.path = st.path ∧ st'.writeFails = st.writeFails ∧
      GetDefaultPricingData st' fname = (st', .ok r) := by
  cases hd : st.files (st.path ++ fname) with
  | data d =>
    simp only [GetDefaultPricingData, hd, Prod.mk.injEq] at h
    obtain ⟨rfl, hr⟩ := h
    refine ⟨rfl, rfl, ?_⟩
    simp [GetDefaultPricingData, hd, hr]
  | unreadable => simp [GetDefaultPricingData, hd] at h
  | statFails => simp [GetDefaultPricingData, hd] at h
  | absent =>
    simp only [GetDefaultPricingData, hd] at h
    split at h
    · simp at h
    · simp only [Prod.mk.injEq, Except.ok.injEq] at h
      obtain ⟨rfl, rfl⟩ := h
      refine ⟨rfl, rfl, ?_⟩
      exact GetDefaultPricingData_of_data _ _ _ (by simp [Storage.write, Storage.path])

/-! ## Lemmas on the pricing cache -/

/-- The cache `DownloadPricingData` builds from the prior cache `m` and the
loaded record `p`, as a function of the key. -/
theorem entry_after_inserts (m : GoMap NodePrice) (p : CustomPricing) (k : String) :
    (((m.insert "default" { CPU := p.CPU, RAM := p.RAM }).insert "default,spot"
        { CPU := p.SpotCPU, RAM := p.SpotRAM }).insert "default,gpu"
        { CPU := p.CPU, RAM := p.RAM, GPU := p.GPU }) k
      = if k = "default,gpu" then some { CPU := p.CPU, RAM := p.RAM, GPU := p.GPU }
        else if k = "default,spot" then some { CPU := p.SpotCPU, RAM := p.SpotRAM, GPU := "" }
        else if k = "default" then some { CPU := p.CPU, RAM := p.RAM, GPU := "" }
        else m k := by
  simp only [GoMap.insert]

/-- What `DownloadPricingData` does when the record loads: it succeeds, and
every entry of the new cache is the rebuilt tier or the prior entry. -/
theorem DownloadPricingData_of_load (c : CustomProvider) {st st' : Storage} {p : CustomPricing}
    (h : GetDefaultPricingData st "default.json" = (st', .ok p)) :
    (c.DownloadPricingData st).1 = st' ∧ (c.DownloadPricingData st).2.2 = none ∧
    (c.DownloadPricingData st).2.1.SpotLabel = p.SpotLabel ∧
    (c.DownloadPricingData st).2.1.SpotLabelValue = p.SpotLabelValue ∧
    (c.DownloadPricingData st).2.1.GPULabel = p.GpuLabel ∧
    (c.DownloadPricingData st).2.1.GPULabelValue = p.GpuLabelValue ∧
    ∀ k, (c.DownloadPricingData st).2.1.entry k
      = if k = "default,gpu" then some { CPU := p.CPU, RAM := p.RAM, GPU := p.GPU }
        else if k = "default,spot" then some { CPU := p.SpotCPU, RAM := p.SpotRAM, GPU := "" }
        else if k = "default" then some { CPU := p.CPU, RAM := p.RAM, GPU := "" }
        else c.entry k := by
  refine ⟨?_, ?_, ?_, ?_, ?_, ?_, ?_⟩ <;>
    simp only [CustomProvider.DownloadPricingData, h]
  intro k
  simp only [CustomProvider.entry, entry_after_inserts]
  cases c.Pricing <;> rfl

/-- The lookup of `NodePricing` for a key with a GPU type. -/
theorem NodePricing_gpu (c : CustomProvider) (key : Key) (h : key.GPUType ≠ "") :
    c.NodePricing key =
      match c.entry ((if (c.entry key.Features).isSome then key.Features else "default")
          ++ ",gpu") with
      | none => .panic .nilDereference
      | some e => .ok { VCPUCost := e.CPU, RAMCost := e.RAM, GPUCost := e.GPU, GPU := "1" } := by
  simp [CustomProvider.NodePricing, h]

/-- The lookup of `NodePricing` for a key without a GPU type. -/
theorem NodePricing_no_gpu (c : CustomProvider) (key : Key) (h : key.GPUType = "") :
    c.NodePricing key =
      match c.entry (if (c.entry key.Features).isSome then key.Features else "default") with
      | none => .panic .nilDereference
      | some e => .ok { VCPUCost := e.CPU, RAMCost := e.RAM, GPUCost := e.GPU, GPU := "" } := by
  simp [CustomProvider.NodePricing, h]

/-- A call of `DownloadPricingData` that returns nil has loaded a record. -/
theorem DownloadPricingData_success {c : CustomProvider} {st : Storage}
    (h : (c.DownloadPricingData st).2.2 = none) :
    ∃ st' p, GetDefaultPricingData st "default.json" = (st', .ok p) := by
  rcases hl : GetDefaultPricingData st "default.json" with ⟨st', r⟩
  cases r with
  | error err => simp [CustomProvider.DownloadPricingData, hl] at h
  | ok p => exact ⟨st', p, rfl⟩

/-! ## C1: fallback to the default tier -/

/-- C1, counterexample.  A fresh provider refreshes its cache from an empty
storage (the default record, GPU price `0.95`).  A key whose features have no
entry and whose GPU type is not empty is then priced from the `default,gpu`
tier: the GPU unit cost returned is `0.95`, while the entry stored under
`default` has the empty GPU price. -/
theorem C1_counterexample :
    (({} : CustomProvider).DownloadPricingData freshStorage).2.2 = none ∧
    (({} : CustomProvider).DownloadPricingData freshStorage).2.1.entry
        "us-central1,n1standard,ondemand" = none ∧
    (({} : CustomProvider).DownloadPricingData freshStorage).2.1.entry "default"
      = some { CPU := "0.031611", RAM := "0.004237", GPU := "" } ∧
    (({} : CustomProvider).DownloadPricingData freshStorage).2.1.NodePricing
        { ID := "", Features := "us-central1,n1standard,ondemand",
          GPUType := "nvidia-tesla-k80" }
      = .ok { VCPUCost := "0.031611", RAMCost := "0.004237", GPUCost := "0.95", GPU := "1" } ∧
    ¬ ∃ d n, (({} : CustomProvider).DownloadPricingData freshStorage).2.1.entry "default" = some d ∧
      (({} : CustomProvider).DownloadPricingData freshStorage).2.1.NodePricing
        { ID := "", Features := "us-central1,n1standard,ondemand",
          GPUType := "nvidia-tesla-k80" } = .ok n ∧
      n.VCPUCost = d.CPU ∧ n.RAMCost = d.RAM ∧ n.GPUCost = d.GPU := by
  have h1 : (({} : CustomProvider).DownloadPricingData freshStorage).2.1.entry "default"
      = some { CPU := "0.031611", RAM := "0.004237", GPU := "" } := by decide
  have h2 : (({} : CustomProvider).DownloadPricingData freshStorage).2.1.NodePricing
        { ID := "", Features := "us-central1,n1standard,ondemand",
          GPUType := "nvidia-tesla-k80" }
      = .ok { VCPUCost := "0.031611", RAMCost := "0.004237", GPUCost := "0.95", GPU := "1" } := by
    decide
  refine ⟨by decide, by decide, h1, h2, ?_⟩
  rintro ⟨d, n, hd, hn, -, -, hg⟩
  rw [h1] at hd
  rw [h2] at hn
  cases hd
  cases hn
  revert hg
  decide

/-- C1, amended.  After a successful `DownloadPricingData`, for a key whose
features have no entry in the cache, `NodePricing` returns a node with a nil
error; its CPU and RAM unit costs are those of the entry under `default`; its
GPU unit cost is that of the entry under `default` (the empty string) when the
GPU type is empty, and that of the entry under `default,gpu` when it is not. -/
theorem C1_fallback_to_default (c : CustomProvider) (st : Storage) (key : Key)
    (hok : (c.DownloadPricingData st).2.2 = none)
    (hmiss : (c.DownloadPricingData st).2.1.entry key.Features = none) :
    ∃ d g, (c.DownloadPricingData st).2.1.entry "default" = some d ∧
      (c.DownloadPricingData st).2.1.entry "default,gpu" = some g ∧
      d.GPU = "" ∧ g.CPU = d.CPU ∧ g.RAM = d.RAM ∧
      (c.DownloadPricingData st).2.1.NodePricing key
        = .ok { VCPUCost := d.CPU, RAMCost := d.RAM,
                GPUCost := if key.GPUType = "" then d.GPU else g.GPU,
                GPU := if key.GPUType = "" then "" else "1" } := by
  obtain ⟨st', p, hload⟩ := DownloadPricingData_success hok
  obtain ⟨-, -, -, -, -, -, hentry⟩ := DownloadPricingData_of_load c hload
  have hd := hentry "default"
  have hg := hentry "default,gpu"
  simp only [String.reduceEq, if_false, if_true] at hd hg
  refine ⟨_, _, hd, hg, rfl, rfl, rfl, ?_⟩
  by_cases hgpu : key.GPUType = ""
  · simp [CustomProvider.NodePricing, hmiss, hgpu, hd]
  · simp [CustomProvider.NodePricing, hmiss, hgpu, hg]

/-- C1, witness of the amended statement: a fresh provider on an empty storage
and a key with unknown features and a GPU type. -/
theorem C1_fallback_to_default_witness :
    (({} : CustomProvider).DownloadPricingData freshStorage).2.2 = none ∧
    (({} : CustomProvider).DownloadPricingData freshStorage).2.1.entry
        "us-central1,n1standard,ondemand" = none ∧
    ∃ d g, (({} : CustomProvider).DownloadPricingData freshStorage).2.1.entry "default" = some d ∧
      (({} : CustomProvider).DownloadPricingData freshStorage).2.1.entry "default,gpu" = some g ∧
      d.GPU = "" ∧ g.CPU = d.CPU ∧ g.RAM = d.RAM ∧
      (({} : CustomProvider).DownloadPricingData freshStorage).2.1.NodePricing
          { ID := "", Features := "us-central1,n1standard,ondemand", GPUType := "nvidia-tesla-k80" }
        = .ok { VCPUCost := d.CPU, RAMCost := d.RAM,
                GPUCost := if "nvidia-tesla-k80" = "" then d.GPU else g.GPU,
                GPU := if "nvidia-tesla-k80" = "" then "" else "1" } :=
  ⟨by decide, by decide,
    C1_fallback_to_default {} freshStorage
      { ID := "", Features := "us-central1,n1standard,ondemand", GPUType := "nvidia-tesla-k80" }
      (by decide) (by decide)⟩

/-! ## C2: lookups that find no entry -/

/-- C2, the code at the failing input.  The configuration names the spot and
GPU labels; the cache has been refreshed successfully and holds the `default`
entry.  For the key `GetKey` derives from the labels of a spot node with a GPU
(features `default,spot`, a GPU type), `NodePricing` looks up
`default,spot,gpu`, finds no entry and panics on the nil pointer. -/
theorem C2_spot_gpu_key_panics :
    (({} : CustomProvider).DownloadPricingData (storageHolding labelledPricing)).2.2 = none ∧
    (({} : CustomProvider).DownloadPricingData (storageHolding labelledPricing)).2.1.GetKey
        spotGpuLabels
      = { ID := "", Features := "default,spot", GPUType := "nvidia-tesla-k80" } ∧
    (({} : CustomProvider).DownloadPricingData (storageHolding labelledPricing)).2.1.entry "default"
      = some { CPU := "0.031611", RAM := "0.004237", GPU := "" } ∧
    (({} : CustomProvider).DownloadPricingData (storageHolding labelledPricing)).2.1.entry
        "default,spot,gpu" = none ∧
    (({} : CustomProvider).DownloadPricingData (storageHolding labelledPricing)).2.1.NodePricing
        ((({} : CustomProvider).DownloadPricingData (storageHolding labelledPricing)).2.1.GetKey
          spotGpuLabels)
      = .panic .nilDereference := by
  decide

/-- The defect in general: whatever the record, after a successful refresh of a
cache that has no entry of its own under `default,spot,gpu`, every key with the
features `default,spot` and a GPU type makes `NodePricing` panic. -/
theorem NodePricing_spot_gpu_panics (c : CustomProvider) (st : Storage) (key : Key)
    (hok : (c.DownloadPricingData st).2.2 = none)
    (hprior : c.entry "default,spot,gpu" = none)
    (hspot : key.Features = "default,spot") (hgpu : key.GPUType ≠ "") :
    (c.DownloadPricingData st).2.1.NodePricing key = .panic .nilDereference := by
  obtain ⟨st', p, hload⟩ := DownloadPricingData_success hok
  obtain ⟨-, -, -, -, -, -, hentry⟩ := DownloadPricingData_of_load c hload
  have hs := hentry "default,spot"
  have hsg := hentry "default,spot,gpu"
  simp only [String.reduceEq, if_false, if_true, hprior] at hs hsg
  rw [NodePricing_gpu _ _ hgpu, hspot]
  simp only [hs, Option.isSome_some, if_true, String.reduceAppend, hsg]

/-- The lookups of `NodePricing` that do return a node after a successful
refresh: every key without a GPU type, and every key with one whose features
have no entry of their own. -/
theorem NodePricing_returns_after_download (c : CustomProvider) (st : Storage) (key : Key)
    (hok : (c.DownloadPricingData st).2.2 = none)
    (h : key.GPUType = "" ∨ (c.DownloadPricingData st).2.1.entry key.Features = none) :
    ∃ n, (c.DownloadPricingData st).2.1.NodePricing key = .ok n := by
  obtain ⟨st', p, hload⟩ := DownloadPricingData_success hok
  obtain ⟨-, -, -, -, -, -, hentry⟩ := DownloadPricingData_of_load c hload
  have hd := hentry "default"
  have hg := hentry "default,gpu"
  simp only [String.reduceEq, if_false, if_true] at hd hg
  rcases h with h | h
  · rw [NodePricing_no_gpu _ _ h]
    cases hf : (c.DownloadPricingData st).2.1.entry key.Features with
    | none =>
      simp only [Option.isSome_none, Bool.false_eq_true, if_false, hd]
      exact ⟨_, rfl⟩
    | some e =>
      simp only [Option.isSome_some, if_true, hf]
      exact ⟨_, rfl⟩
  · by_cases hgpu : key.GPUType = ""
    · rw [NodePricing_no_gpu _ _ hgpu]
      simp only [h, Option.isSome_none, Bool.false_eq_true, if_false, hd]
      exact ⟨_, rfl⟩
    · rw [NodePricing_gpu _ _ hgpu]
      simp only [h, Option.isSome_none, Bool.false_eq_true, if_false, String.reduceAppend, hg]
      exact ⟨_, rfl⟩

/-! ## C3: the feature string of a key -/

/-- C3.  For every `customProviderKey`, `Features` returns `default,spot`
exactly when the label map has a value under the spot label that is not empty
and equals the configured spot label value, and `default` in every other case:
label absent, label empty, label present with another value.  The same holds
for the key `GetKey` builds from a provider and a label map. -/
theorem C3_features_spot_iff (c : customProviderKey) (p : CustomProvider) (labels : GoMap String) :
    (c.Features = "default,spot" ↔
      ∃ v, c.Labels c.SpotLabel = some v ∧ v ≠ "" ∧ v = c.SpotLabelValue) ∧
    (c.Features = "default" ↔
      ¬ ∃ v, c.Labels c.SpotLabel = some v ∧ v ≠ "" ∧ v = c.SpotLabelValue) ∧
    (c.Labels c.SpotLabel = none → c.Features = "default") ∧
    (c.Labels c.SpotLabel = some "" → c.Features = "default") ∧
    (∀ v, c.Labels c.SpotLabel = some v → v ≠ c.SpotLabelValue → c.Features = "default") ∧
    ((p.GetKey labels).Features = "default,spot" ↔
      ∃ v, labels p.SpotLabel = some v ∧ v ≠ "" ∧ v = p.SpotLabelValue) ∧
    ((p.GetKey labels).Features = "default" ↔
      ¬ ∃ v, labels p.SpotLabel = some v ∧ v ≠ "" ∧ v = p.SpotLabelValue) := by
  have key : ∀ k : customProviderKey,
      (k.Features = "default,spot" ↔
        ∃ v, k.Labels k.SpotLabel = some v ∧ v ≠ "" ∧ v = k.SpotLabelValue) ∧
      (k.Features = "default" ↔
        ¬ ∃ v, k.Labels k.SpotLabel = some v ∧ v ≠ "" ∧ v = k.SpotLabelValue) := by
    intro k
    unfold customProviderKey.Features GoMap.index
    cases hl : k.Labels k.SpotLabel with
    | none => simp
    | some v =>
      by_cases h1 : v = ""
      · simp [h1]
      · by_cases h2 : v = k.SpotLabelValue
        · simp [h1, h2]
        · simp [h1, h2]
  refine ⟨(key c).1, (key c).2, ?_, ?_, ?_, (key _).1, (key _).2⟩
  · intro h
    exact (key c).2.mpr (by simp [h])
  · intro h
    exact (key c).2.mpr (by simp [h])
  · intro v h hv
    exact (key c).2.mpr (by simp [h, hv])

/-- C3 on concrete keys: the label matches; the label has another value; the
label is absent; the label and the configured value are both empty. -/
theorem C3_features_spot_iff_witness :
    customProviderKey.Features
      { SpotLabel := "lifecycle", SpotLabelValue := "spot", GPULabel := "accelerator",
        GPULabelValue := "", Labels := spotGpuLabels } = "default,spot" ∧
    customProviderKey.Features
      { SpotLabel := "lifecycle", SpotLabelValue := "preemptible", GPULabel := "accelerator",
        GPULabelValue := "", Labels := spotGpuLabels } = "default" ∧
    customProviderKey.Features
      { SpotLabel := "node-role", SpotLabelValue := "spot", GPULabel := "accelerator",
        GPULabelValue := "", Labels := spotGpuLabels } = "default" ∧
    customProviderKey.Features
      { SpotLabel := "lifecycle", SpotLabelValue := "", GPULabel := "",
        GPULabelValue := "", Labels := fun k => if k = "lifecycle" then some "" else none }
      = "default" :=
  ⟨(C3_features_spot_iff
      { SpotLabel := "lifecycle", SpotLabelValue := "spot", GPULabel := "accelerator",
        GPULabelValue := "", Labels := spotGpuLabels } {} GoMap.empty).1.mpr
      ⟨"spot", by decide, by decide, rfl⟩,
   (C3_features_spot_iff
      { SpotLabel := "lifecycle", SpotLabelValue := "preemptible", GPULabel := "accelerator",
        GPULabelValue := "", Labels := spotGpuLabels } {} GoMap.empty).2.2.2.2.1
      "spot" (by decide) (by decide),
   (C3_features_spot_iff
      { SpotLabel := "node-role", SpotLabelValue := "spot", GPULabel := "accelerator",
        GPULabelValue := "", Labels := spotGpuLabels } {} GoMap.empty).2.2.1 (by decide),
   (C3_features_spot_iff
      { SpotLabel := "lifecycle", SpotLabelValue := "", GPULabel := "",
        GPULabelValue := "", Labels := fun k => if k = "lifecycle" then some "" else none }
      {} GoMap.empty).2.2.2.1 (by decide)⟩

/-! ## C4: keys with a GPU type -/

/-- C4, the code at the failing input.  The cache has been refreshed from a
record that names the spot and GPU labels.  The key of a spot node with a GPU
has the features `default,spot`, which are in the cache, and a GPU type, so the
lookup key is `default,spot,gpu`; the cache has no entry under it and
`NodePricing` panics: no node, and no GPU count `1`, is returned.  The key of
an on-demand node with the same GPU gets a node with the count `1`. -/
theorem C4_spot_key_with_gpu_gets_no_node :
    labelledProvider.GetKey spotV100Labels
      = { ID := "", Features := "default,spot", GPUType := "nvidia-tesla-v100" } ∧
    (labelledProvider.entry "default,spot").isSome = true ∧
    labelledProvider.entry "default,spot,gpu" = none ∧
    labelledProvider.NodePricing (labelledProvider.GetKey spotV100Labels)
      = .panic .nilDereference ∧
    labelledProvider.GetKey onDemandV100Labels
      = { ID := "", Features := "default", GPUType := "nvidia-tesla-v100" } ∧
    labelledProvider.NodePricing (labelledProvider.GetKey onDemandV100Labels)
      = .ok { VCPUCost := "0.031611", RAMCost := "0.004237", GPUCost := "0.95", GPU := "1" } := by
  decide

/-- The part of C4 the code does fulfil, for every cache and key.  Let `k` be
the features of the key when the cache has an entry under them, and `default`
otherwise.  For a key with a non-empty GPU type `NodePricing` looks up `k`
followed by `,gpu`; when the cache has an entry there, it returns a node with
the costs of that entry and the GPU count `1`, and when it has none, the call
panics; two keys that differ only in their non-empty GPU type get the same
result.  For a key with an empty GPU type it looks up `k` itself and the GPU
count is the empty string. -/
theorem NodePricing_gpu_suffix_and_count (c : CustomProvider) (key : Key) :
    (key.GPUType ≠ "" →
      (∀ e, c.entry ((if (c.entry key.Features).isSome then key.Features else "default")
            ++ ",gpu") = some e →
          c.NodePricing key
            = .ok { VCPUCost := e.CPU, RAMCost := e.RAM, GPUCost := e.GPU, GPU := "1" }) ∧
      (c.entry ((if (c.entry key.Features).isSome then key.Features else "default")
            ++ ",gpu") = none → c.NodePricing key = .panic .nilDereference) ∧
      (∀ key' : Key, key'.ID = key.ID → key'.Features = key.Features → key'.GPUType ≠ "" →
          c.NodePricing key' = c.NodePricing key)) ∧
    (key.GPUType = "" →
      ∀ e, c.entry (if (c.entry key.Features).isSome then key.Features else "default") = some e →
        c.NodePricing key
          = .ok { VCPUCost := e.CPU, RAMCost := e.RAM, GPUCost := e.GPU, GPU := "" }) := by
  refine ⟨fun hgpu => ⟨?_, ?_, ?_⟩, ?_⟩
  · intro e he
    rw [NodePricing_gpu _ _ hgpu, he]
  · intro he
    rw [NodePricing_gpu _ _ hgpu, he]
  · intro key' _ hfeat hgpu'
    rw [NodePricing_gpu _ _ hgpu, NodePricing_gpu _ _ hgpu', hfeat]
  · intro hgpu e he
    rw [NodePricing_no_gpu _ _ hgpu, he]

/-- On the refreshed cache a `default` key with a GPU type is priced from
`default,gpu` with count `1`, whatever the GPU type is called, and a spot key
without a GPU type is priced from `default,spot` with no count. -/
theorem NodePricing_gpu_suffix_and_count_example :
    refreshedProvider.NodePricing { ID := "", Features := "default", GPUType := "nvidia-tesla-k80" }
      = .ok { VCPUCost := "0.031611", RAMCost := "0.004237", GPUCost := "0.95", GPU := "1" } ∧
    refreshedProvider.NodePricing { ID := "", Features := "default", GPUType := "nvidia-tesla-v100" }
      = refreshedProvider.NodePricing
          { ID := "", Features := "default", GPUType := "nvidia-tesla-k80" } ∧
    refreshedProvider.NodePricing { ID := "", Features := "default,spot", GPUType := "" }
      = .ok { VCPUCost := "0.006655", RAMCost := "0.000892", GPUCost := "", GPU := "" } :=
  ⟨((NodePricing_gpu_suffix_and_count refreshedProvider
        { ID := "", Features := "default", GPUType := "nvidia-tesla-k80" }).1 (by decide)).1
      { CPU := "0.031611", RAM := "0.004237", GPU := "0.95" } (by decide),
   ((NodePricing_gpu_suffix_and_count refreshedProvider
        { ID := "", Features := "default", GPUType := "nvidia-tesla-k80" }).1 (by decide)).2.2
      { ID := "", Features := "default", GPUType := "nvidia-tesla-v100" } rfl rfl (by decide),
   (NodePricing_gpu_suffix_and_count refreshedProvider
        { ID := "", Features := "default,spot", GPUType := "" }).2 rfl
      { CPU := "0.006655", RAM := "0.000892", GPU := "" } (by decide)⟩

/-! ## C5: what a refresh changes in the cache -/

/-- C5.  A call of `DownloadPricingData` returns nil exactly when the persisted
record loads.  Then, `p` being that record, it leaves the cache equal to the
prior one with three keys overwritten: `default` holds the CPU and RAM prices
of `p` and no GPU price, `default,spot` its spot CPU and spot RAM prices and no
GPU price, `default,gpu` its CPU, RAM and GPU prices; under every other key the
entry is the prior one, present if it was and with the same prices. -/
theorem C5_download_overwrites_three_keys (c : CustomProvider) (st : Storage) :
    ((c.DownloadPricingData st).2.2 = none ↔
      ∃ p, (GetDefaultPricingData st "default.json").2 = .ok p) ∧
    ∀ p, (GetDefaultPricingData st "default.json").2 = .ok p →
      (c.DownloadPricingData st).2.2 = none ∧
      (c.DownloadPricingData st).2.1.entry "default"
        = some { CPU := p.CPU, RAM := p.RAM, GPU := "" } ∧
      (c.DownloadPricingData st).2.1.entry "default,spot"
        = some { CPU := p.SpotCPU, RAM := p.SpotRAM, GPU := "" } ∧
      (c.DownloadPricingData st).2.1.entry "default,gpu"
        = some { CPU := p.CPU, RAM := p.RAM, GPU := p.GPU } ∧
      ∀ k, k ≠ "default" → k ≠ "default,spot" → k ≠ "default,gpu" →
        (c.DownloadPricingData st).2.1.entry k = c.entry k := by
  have main : ∀ p, (GetDefaultPricingData st "default.json").2 = .ok p →
      (c.DownloadPricingData st).2.2 = none ∧
      (c.DownloadPricingData st).2.1.entry "default"
        = some { CPU := p.CPU, RAM := p.RAM, GPU := "" } ∧
      (c.DownloadPricingData st).2.1.entry "default,spot"
        = some { CPU := p.SpotCPU, RAM := p.SpotRAM, GPU := "" } ∧
      (c.DownloadPricingData st).2.1.entry "default,gpu"
        = some { CPU := p.CPU, RAM := p.RAM, GPU := p.GPU } ∧
      ∀ k, k ≠ "default" → k ≠ "default,spot" → k ≠ "default,gpu" →
        (c.DownloadPricingData st).2.1.entry k = c.entry k := by
    intro p hp
    have hload : GetDefaultPricingData st "default.json"
        = ((GetDefaultPricingData st "default.json").1, .ok p) := by rw [← hp]
    obtain ⟨-, hnil, -, -, -, -, hentry⟩ := DownloadPricingData_of_load c hload
    refine ⟨hnil, ?_, ?_, ?_, ?_⟩
    · rw [hentry]; simp only [String.reduceEq, if_false, if_true]
    · rw [hentry]; simp only [String.reduceEq, if_false, if_true]
    · rw [hentry]; simp only [if_true]
    · intro k h1 h2 h3
      rw [hentry]
      simp only [h1, h2, h3, if_false]
  refine ⟨⟨fun hok => ?_, fun ⟨p, hp⟩ => (main p hp).1⟩, main⟩
  obtain ⟨st', p, hload⟩ := DownloadPricingData_success hok
  exact ⟨p, by rw [hload]⟩

/-- C5, witness: a provider with an entry of its own under `legacy` and an
outdated `default` entry refreshes from a storage that holds a record. -/
theorem C5_download_overwrites_three_keys_witness :
    (GetDefaultPricingData (storageHolding labelledPricing) "default.json").2
      = .ok labelledPricing ∧
    (staleProvider.DownloadPricingData (storageHolding labelledPricing)).2.2 = none ∧
    (staleProvider.DownloadPricingData (storageHolding labelledPricing)).2.1.entry "default"
      = some { CPU := "0.031611", RAM := "0.004237", GPU := "" } ∧
    (staleProvider.DownloadPricingData (storageHolding labelledPricing)).2.1.entry "default,spot"
      = some { CPU := "0.006655", RAM := "0.000892", GPU := "" } ∧
    (staleProvider.DownloadPricingData (storageHolding labelledPricing)).2.1.entry "default,gpu"
      = some { CPU := "0.031611", RAM := "0.004237", GPU := "0.95" } ∧
    ∀ k, k ≠ "default" → k ≠ "default,spot" → k ≠ "default,gpu" →
      (staleProvider.DownloadPricingData (storageHolding labelledPricing)).2.1.entry k
        = staleProvider.entry k :=
  ⟨by decide,
    (C5_download_overwrites_three_keys staleProvider (storageHolding labelledPricing)).2
      labelledPricing (by decide)⟩

/-! ## Lemmas on the patch loop -/

theorem titleRunes_of_ascii (tbl tbl' : TitleTable) (prev : Char) (l : List Char)
    (h : ∀ c ∈ l, c.val ≤ 0x7F) : titleRunes tbl prev l = titleRunes tbl' prev l := by
  induction l generalizing prev with
  | nil => rfl
  | cons r rs ih =>
    have hr := h r (List.mem_cons_self _ _)
    simp only [titleRunes, ToTitle, hr, if_true]
    rw [ih r (fun c hc => h c (List.mem_cons_of_mem _ hc))]

/-- For a name made of ASCII runes `strings.Title` does not consult the case
table: every table gives the same result. -/
theorem Title_of_ascii (tbl tbl' : TitleTable) (s : String)
    (h : ∀ c ∈ s.toList, c.val ≤ 0x7F) : Title tbl s = Title tbl' s := by
  unfold Title
  rw [titleRunes_of_ascii tbl tbl' ' ' s.toList h]

/-- A patch all of whose names are fields goes through; the fields it does not
name keep their values, and when no two names select the same field every
named field ends with the value supplied for it. -/
theorem patchLoop_ok {tbl : TitleTable} (c : CustomPricing)
    (entries : List (String × String))
    (h : ∀ kv ∈ entries, (fieldByName (Title tbl kv.1)).isSome = true) :
    ∃ c', patchLoop tbl c entries = .ok c' ∧
      (∀ f, (∀ kv ∈ entries, fieldByName (Title tbl kv.1) ≠ some f) → c'.get f = c.get f) ∧
      ((entries.map (fun kv => Title tbl kv.1)).Nodup →
        ∀ kv ∈ entries, ∀ f, fieldByName (Title tbl kv.1) = some f → c'.get f = kv.2) := by
  induction entries generalizing c with
  | nil => exact ⟨c, rfl, fun _ _ => rfl, fun _ kv hkv => by simp at hkv⟩
  | cons x rest ih =>
    obtain ⟨k, v⟩ := x
    have hx := h (k, v) (List.mem_cons_self _ _)
    obtain ⟨f0, hf0⟩ := Option.isSome_iff_exists.mp hx
    simp only at hf0
    obtain ⟨c', hc', hframe, hset⟩ :=
      ih (c.set f0 v) (fun kv hkv => h kv (List.mem_cons_of_mem _ hkv))
    refine ⟨c', ?_, ?_, ?_⟩
    · simp only [patchLoop, SetCustomPricingField, hf0]
      exact hc'
    · intro f hf
      rw [hframe f (fun kv hkv => hf kv (List.mem_cons_of_mem _ hkv))]
      apply CustomPricing.get_set_ne
      intro hff
      exact hf (k, v) (List.mem_cons_self _ _) (by simp only [hf0, hff])
    · intro hnd kv hkv f hf
      simp only [List.map_cons, List.nodup_cons] at hnd
      rcases List.mem_cons.mp hkv with rfl | hkv
      · simp only [hf0, Option.some.injEq] at hf
        subst hf
        rw [hframe f0]
        · exact CustomPricing.get_set_same _ _ _
        · intro kv' hkv' hsame
          apply hnd.1
          have e1 := fieldByName_eq_some hsame
          have e2 := fieldByName_eq_some hf0
          exact List.mem_map.mpr ⟨kv', hkv', by rw [← e1, ← e2]⟩
      · exact hset hnd.2 kv hkv f hf

/-! ## Lemmas on `UpdateConfig` -/

/-- A patch loop that goes through, followed by a write that succeeds: the
merged record is returned, the file holds its JSON form, and the refresh that
follows reads it without changing the storage. -/
theorem UpdateConfig_of_patch_ok (cprov : CustomProvider) {tbl : TitleTable}
    {st st1 : Storage}
    {r r' : CustomPricing} {entries : List (String × String)} (updateType : String)
    (hload : GetDefaultPricingData st "default.json" = (st1, .ok r))
    (hloop : patchLoop tbl r entries = .ok r')
    (hwrite : st.writeFails (st.path ++ "default.json") = false) :
    (cprov.UpdateConfig tbl st (.ok entries) updateType).2.2 = .ok r' ∧
    (cprov.UpdateConfig tbl st (.ok entries) updateType).1
      = st1.write (st.path ++ "default.json") (Marshal r') ∧
    (cprov.UpdateConfig tbl st (.ok entries) updateType).2.1
      = (cprov.DownloadPricingData (st1.write (st.path ++ "default.json") (Marshal r'))).2.1 := by
  obtain ⟨hpath, hwf, -⟩ := GetDefaultPricingData_ok_files hload
  have hw : st1.writeFails (st.path ++ "default.json") = false := by rw [hwf, hwrite]
  have hreload : GetDefaultPricingData (st1.write (st.path ++ "default.json") (Marshal r'))
      "default.json" = (st1.write (st.path ++ "default.json") (Marshal r'), .ok r') :=
    GetDefaultPricingData_of_data _ _ _ (by
      rw [Storage.path_write, hpath, Storage.files_write_same])
  have hst := (DownloadPricingData_of_load cprov hreload).1
  simp only [CustomProvider.UpdateConfig, hload, hloop, hw, hpath, Bool.false_eq_true, if_false,
    hst, and_self]

/-! ## C6: a patch with an unknown field name -/

/-- C7, counterexample.  The config file holds the default record.  First
input: the patch has the entries `CPU` with value `2` and `cPU` with value `1`;
both names are field names once capitalised, and both select the field `CPU`.
Visited in this order, `UpdateConfig` succeeds and the record it returns and
persists has `CPU` equal to `1`, not the `2` supplied under the name `CPU`.
Second input: the file cannot be written and the patch sets `CPU` alone;
`UpdateConfig` does not succeed but returns the write error, and the file still
holds the default record. -/
theorem C7_counterexample :
    (fieldByName (Title plainTable "CPU") = some .CPU ∧ fieldByName (Title plainTable "cPU") = some .CPU ∧
      (({} : CustomProvider).UpdateConfig plainTable (storageHolding (defaultPricing "default.json"))
          (.ok [("CPU", "2"), ("cPU", "1")]) "").2.2
        = .ok { defaultPricing "default.json" with CPU := "1" } ∧
      (({} : CustomProvider).UpdateConfig plainTable (storageHolding (defaultPricing "default.json"))
          (.ok [("CPU", "2"), ("cPU", "1")]) "").1.files "/models/default.json"
        = .data (Marshal { defaultPricing "default.json" with CPU := "1" }) ∧
      ({ defaultPricing "default.json" with CPU := "1" } : CustomPricing).get .CPU ≠ "2") ∧
    ((GetDefaultPricingData (readOnlyStorageHolding (defaultPricing "default.json"))
          "default.json").2 = .ok (defaultPricing "default.json") ∧
      (({} : CustomProvider).UpdateConfig plainTable (readOnlyStorageHolding (defaultPricing "default.json"))
          (.ok [("CPU", "2")]) "").2.2 = .error .write ∧
      (({} : CustomProvider).UpdateConfig plainTable (readOnlyStorageHolding (defaultPricing "default.json"))
          (.ok [("CPU", "2")]) "").1.files "/models/default.json"
        = .data (Marshal (defaultPricing "default.json"))) := by
  decide

/-- C7, amended.  When the record loads as `r`, every name of the patch is a
field name once `strings.Title` has capitalised it, no two names select the
same field, and the write of the config file succeeds, `UpdateConfig` succeeds;
the record it returns is also the one persisted (the file holds its JSON form
and a later load returns it), and it equals `r` with every field the patch
names set to the value supplied for it and every other field unchanged. -/
theorem C7_patch_merged_and_persisted (cprov : CustomProvider) (tbl : TitleTable)
    (st st1 : Storage)
    (r : CustomPricing) (entries : List (String × String)) (updateType : String)
    (hload : GetDefaultPricingData st "default.json" = (st1, .ok r))
    (hknown : ∀ kv ∈ entries, (fieldByName (Title tbl kv.1)).isSome = true)
    (hdistinct : (entries.map (fun kv => Title tbl kv.1)).Nodup)
    (hwrite : st.writeFails (st.path ++ "default.json") = false) :
    ∃ r', (cprov.UpdateConfig tbl st (.ok entries) updateType).2.2 = .ok r' ∧
      (cprov.UpdateConfig tbl st (.ok entries) updateType).1.files (st.path ++ "default.json")
        = .data (Marshal r') ∧
      GetDefaultPricingData (cprov.UpdateConfig tbl st (.ok entries) updateType).1 "default.json"
        = ((cprov.UpdateConfig tbl st (.ok entries) updateType).1, .ok r') ∧
      (∀ kv ∈ entries, ∀ f, fieldByName (Title tbl kv.1) = some f → r'.get f = kv.2) ∧
      (∀ f, (∀ kv ∈ entries, fieldByName (Title tbl kv.1) ≠ some f) → r'.get f = r.get f) := by
  obtain ⟨r', hloop, hframe, hset⟩ := patchLoop_ok r entries hknown
  obtain ⟨hres, hst, -⟩ := UpdateConfig_of_patch_ok cprov updateType hload hloop hwrite
  obtain ⟨hpath, -, -⟩ := GetDefaultPricingData_ok_files hload
  have hfile : (st1.write (st.path ++ "default.json") (Marshal r')).files
      (st.path ++ "default.json") = .data (Marshal r') := Storage.files_write_same _ _ _
  refine ⟨r', hres, ?_, ?_, hset hdistinct, hframe⟩
  · rw [hst, hfile]
  · rw [hst]
    exact GetDefaultPricingData_of_data _ _ _ (by rw [Storage.path_write, hpath, hfile])

/-- C7, witness of the amended statement: the config file holds the default
record; the patch sets `CPU` (written `cPU`) and `spotLabel`. -/
theorem C7_patch_merged_and_persisted_witness :
    (({} : CustomProvider).UpdateConfig plainTable (storageHolding (defaultPricing "default.json"))
        (.ok [("cPU", "2"), ("spotLabel", "lifecycle")]) "").2.2
      = .ok { defaultPricing "default.json" with CPU := "2", SpotLabel := "lifecycle" } ∧
    ∃ r', (({} : CustomProvider).UpdateConfig plainTable (storageHolding (defaultPricing "default.json"))
        (.ok [("cPU", "2"), ("spotLabel", "lifecycle")]) "").2.2 = .ok r' ∧
      (({} : CustomProvider).UpdateConfig plainTable (storageHolding (defaultPricing "default.json"))
        (.ok [("cPU", "2"), ("spotLabel", "lifecycle")]) "").1.files
          ((storageHolding (defaultPricing "default.json")).path ++ "default.json")
        = .data (Marshal r') ∧
      GetDefaultPricingData (({} : CustomProvider).UpdateConfig plainTable
          (storageHolding (defaultPricing "default.json"))
          (.ok [("cPU", "2"), ("spotLabel", "lifecycle")]) "").1 "default.json"
        = ((({} : CustomProvider).UpdateConfig plainTable (storageHolding (defaultPricing "default.json"))
          (.ok [("cPU", "2"), ("spotLabel", "lifecycle")]) "").1, .ok r') ∧
      (∀ kv ∈ [("cPU", "2"), ("spotLabel", "lifecycle")], ∀ f,
        fieldByName (Title plainTable kv.1) = some f → r'.get f = kv.2) ∧
      (∀ f, (∀ kv ∈ [("cPU", "2"), ("spotLabel", "lifecycle")],
        fieldByName (Title plainTable kv.1) ≠ some f) → r'.get f = (defaultPricing "default.json").get f) :=
  ⟨by decide,
   C7_patch_merged_and_persisted {} plainTable (storageHolding (defaultPricing "default.json"))
    (storageHolding (defaultPricing "default.json")) (defaultPricing "default.json")
    [("cPU", "2"), ("spotLabel", "lifecycle")] ""
    (GetDefaultPricingData_of_data _ _ _ (by decide)) (by decide) (by decide) (by decide)⟩

/-! ## C8: the record survives a write and a reload -/

/-- C8.  For every pricing record, empty strings in the fields tagged
`omitempty` included: decoding its JSON form gives the record back, and once
the config file holds that JSON form `GetDefaultPricingData` returns a record
equal to the original, which is then equal in every field. -/
theorem C8_record_roundtrip (r : CustomPricing) (st : Storage) (fname : String) :
    Unmarshal (Marshal r) = .ok r ∧
    GetDefaultPricingData (st.write (st.path ++ fname) (Marshal r)) fname
      = (st.write (st.path ++ fname) (Marshal r), .ok r) ∧
    ∀ r', (GetDefaultPricingData (st.write (st.path ++ fname) (Marshal r)) fname).2 = .ok r' →
      ∀ f, r'.get f = r.get f := by
  have h : GetDefaultPricingData (st.write (st.path ++ fname) (Marshal r)) fname
      = (st.write (st.path ++ fname) (Marshal r), .ok r) :=
    GetDefaultPricingData_of_data _ _ _ (by rw [Storage.path_write, Storage.files_write_same])
  refine ⟨Unmarshal_Marshal r, h, ?_⟩
  intro r' hr' f
  rw [h] at hr'
  cases hr'
  rfl

/-- C8 at a concrete record whose `omitempty` fields are partly empty and partly
set. -/
theorem C8_record_roundtrip_witness :
    Marshal labelledPricing = .object
      [("provider", .str "default.json"),
       ("description", .str "Default prices based on GCP us-central1"),
       ("CPU", .str "0.031611"), ("spotCPU", .str "0.006655"), ("RAM", .str "0.004237"),
       ("spotRAM", .str "0.000892"), ("GPU", .str "0.95"), ("spotGPU", .str ""),
       ("storage", .str "0.00005479452"), ("zoneNetworkEgress", .str "0.01"),
       ("regionNetworkEgress", .str "0.01"), ("internetNetworkEgress", .str "0.12"),
       ("spotLabel", .str "lifecycle"), ("spotLabelValue", .str "spot"),
       ("gpuLabel", .str "accelerator"),
       ("athenaBucketName", .str ""), ("athenaRegion", .str ""), ("athenaDatabase", .str ""),
       ("athenaTable", .str ""), ("customPricesEnabled", .str "false"),
       ("azureSubscriptionID", .str ""), ("azureClientID", .str ""),
       ("azureClientSecret", .str ""), ("azureTenantID", .str ""), ("currencyCode", .str ""),
       ("discount", .str ""), ("clusterName", .str "")] ∧
    Unmarshal (Marshal labelledPricing) = .ok labelledPricing :=
  ⟨by decide, (C8_record_roundtrip labelledPricing freshStorage "default.json").1⟩

/-! ## Lemmas on the case-insensitive test of `NewProvider` -/

theorem lowersOnlyFromASCII_of (c : Char) (h1 : c ≠ 'k') (h2 : c ≠ 'i')
    (h3 : c ≠ Char.ofNat 0x212A) (h4 : c ≠ Char.ofNat 0x130) : lowersOnlyFromASCII c := by
  intro r
  unfold ToLowerRune
  by_cases hk : r = Char.ofNat 0x212A
  · subst hk
    simp only [if_true]
    constructor
    · intro h
      exact absurd h.symm h1
    · intro h
      have : (Char.ofNat 0x212A).toLower = Char.ofNat 0x212A := by decide
      rw [this] at h
      exact absurd h.symm h3
  · by_cases hi : r = Char.ofNat 0x130
    · subst hi
      simp only [hk, if_false, if_true]
      constructor
      · intro h
        exact absurd h.symm h2
      · intro h
        have : (Char.ofNat 0x130).toLower = Char.ofNat 0x130 := by decide
        rw [this] at h
        exact absurd h.symm h4
    · simp only [hk, hi, if_false]

theorem isPrefixOf_map_ToLowerRune (t l : List Char) (ht : ∀ c ∈ t, lowersOnlyFromASCII c) :
    t.isPrefixOf (l.map ToLowerRune) = ((l.take t.length).map Char.toLower == t) := by
  induction t generalizing l with
  | nil => simp
  | cons c t ih =>
    cases l with
    | nil => simp [List.isPrefixOf]
    | cons r l =>
      have hc := ht c (List.mem_cons_self _ _) r
      have ih' := ih l (fun c' hc' => ht c' (List.mem_cons_of_mem _ hc'))
      simp only [List.map_cons, List.isPrefixOf, List.length_cons, List.take_succ_cons, ih']
      by_cases h : r.toLower = c
      · have h' := hc.mpr h
        simp [h, h']
      · have h' : ¬ c = ToLowerRune r := fun e => h (hc.mp e.symm)
        simp [beq_false_of_ne h, beq_false_of_ne h']

theorem HasPrefix_ToLower_aws (id : String) :
    HasPrefix (ToLower id) "aws" = startsWithAnyCase "aws" id := by
  unfold HasPrefix ToLower startsWithAnyCase
  exact isPrefixOf_map_ToLowerRune _ _ (by
    intro c hc
    have hc' : c = 'a' ∨ c = 'w' ∨ c = 's' := by simpa using hc
    rcases hc' with rfl | rfl | rfl <;>
      exact lowersOnlyFromASCII_of _ (by decide) (by decide) (by decide) (by decide))

theorem HasPrefix_ToLower_azure (id : String) :
    HasPrefix (ToLower id) "azure" = startsWithAnyCase "azure" id := by
  unfold HasPrefix ToLower startsWithAnyCase
  exact isPrefixOf_map_ToLowerRune _ _ (by
    intro c hc
    have hc' : c = 'a' ∨ c = 'z' ∨ c = 'u' ∨ c = 'r' ∨ c = 'e' := by simpa using hc
    rcases hc' with rfl | rfl | rfl | rfl | rfl <;>
      exact lowersOnlyFromASCII_of _ (by decide) (by decide) (by decide) (by decide))

/-! ## C9: an empty node list -/

/-- C9, the code at the failing input.  Outside the reference cloud, with a
node listing that succeeds and returns no node, `NewProvider` does not return
the default variant: indexing the first item of the empty list panics. -/
theorem C9_empty_node_list_panics :
    NewProvider { OnGCE := false, Nodes := .ok [] } "" = .panic .indexOutOfRange ∧
    NewProvider { OnGCE := false, Nodes := .ok [] } "api-key" = .panic .indexOutOfRange :=
  ⟨rfl, rfl⟩

/-- The part of C9 the code does fulfil: outside the reference cloud, when the
first listed node has an empty provider identifier, or one that starts with no
known cloud token, `NewProvider` returns the default variant with a nil
error. -/
theorem NewProvider_unrecognised_first_node (apiKey : String) (first : K8sNode)
    (rest : List K8sNode)
    (h : first.ProviderID = "" ∨
      (startsWithAnyCase "aws" first.ProviderID = false ∧
        startsWithAnyCase "azure" first.ProviderID = false)) :
    NewProvider { OnGCE := false, Nodes := .ok (first :: rest) } apiKey = .ok (.Custom {}) := by
  have h' : startsWithAnyCase "aws" first.ProviderID = false ∧
      startsWithAnyCase "azure" first.ProviderID = false := by
    rcases h with h | h
    · rw [h]
      exact ⟨by decide, by decide⟩
    · exact h
  simp [NewProvider, HasPrefix_ToLower_aws, HasPrefix_ToLower_azure, h'.1, h'.2]

/-! ## C10: the order of the selection -/

/-- C10, the code at the failing input.  Outside the reference cloud, with a
listing that succeeds and returns no node, none of the earlier cases applies,
and this remaining case does not give the default variant: `NewProvider`
panics on the first item of the empty list.  Inside the reference cloud the
same listing does no harm, the node list not being asked for: the credential
alone decides. -/
theorem C10_empty_listing_is_no_default :
    NewProvider { OnGCE := false, Nodes := .ok [] } "gcp-api-key" = .panic .indexOutOfRange ∧
    NewProvider { OnGCE := true, Nodes := .ok [] } "gcp-api-key" = .ok (.GCP "gcp-api-key") ∧
    NewProvider { OnGCE := true, Nodes := .ok [] } ""
      = .error (.errorf "Supply a GCP Key to start getting data") :=
  ⟨rfl, rfl, rfl⟩

/-- The part of C10 the code does fulfil: the selection of `NewProvider` is
first match wins.  When the metadata probe reports the reference cloud, the
result is the GCP variant for a non-empty credential and the configuration
error for an empty one, whatever the node listing would give.  Otherwise a
failed listing returns its error.  Otherwise, when a node is listed and `first`
is the first one, the result is the AWS variant when its provider identifier
starts with `aws` in any letter case, else the Azure variant when it starts
with `azure` in any letter case, else the default variant. -/
theorem NewProvider_first_match_wins (env : Cluster) (apiKey : String) :
    (env.OnGCE = true → apiKey ≠ "" → NewProvider env apiKey = .ok (.GCP apiKey)) ∧
    (env.OnGCE = true → apiKey = "" →
      NewProvider env apiKey = .error (.errorf "Supply a GCP Key to start getting data")) ∧
    (env.OnGCE = true → ∀ nodes,
      NewProvider { env with Nodes := nodes } apiKey = NewProvider env apiKey) ∧
    (env.OnGCE = false → ∀ err, env.Nodes = .error err → NewProvider env apiKey = .error err) ∧
    (env.OnGCE = false → ∀ first rest, env.Nodes = .ok (first :: rest) →
      NewProvider env apiKey =
        if startsWithAnyCase "aws" first.ProviderID then .ok .AWS
        else if startsWithAnyCase "azure" first.ProviderID then .ok .Azure
        else .ok (.Custom {})) := by
  refine ⟨?_, ?_, ?_, ?_, ?_⟩
  · intro hg hk
    simp [NewProvider, hg, hk]
  · intro hg hk
    simp [NewProvider, hg, hk]
  · intro hg nodes
    simp [NewProvider, hg]
  · intro hg err hn
    simp [NewProvider, hg, hn]
  · intro hg first rest hn
    simp only [NewProvider, hg, hn, HasPrefix_ToLower_aws, HasPrefix_ToLower_azure,
      Bool.false_eq_true, if_false]

/-- One cluster per branch of the selection. -/
theorem NewProvider_first_match_wins_example :
    NewProvider { OnGCE := true, Nodes := .ok [{ ProviderID := "aws:///us-east-1a/i-0abc" }] }
        "api-key" = .ok (.GCP "api-key") ∧
    NewProvider { OnGCE := true, Nodes := .error (.external "connection refused") } ""
      = .error (.errorf "Supply a GCP Key to start getting data") ∧
    NewProvider { OnGCE := false, Nodes := .error (.external "connection refused") } "api-key"
      = .error (.external "connection refused") ∧
    NewProvider { OnGCE := false, Nodes := .ok [{ ProviderID := "AWS:///us-east-1a/i-0abc" },
        { ProviderID := "azure:///subscriptions/0/vm" }] } "" = .ok .AWS ∧
    NewProvider { OnGCE := false, Nodes := .ok [{ ProviderID := "Azure:///subscriptions/0/vm" }] } ""
      = .ok .Azure ∧
    NewProvider { OnGCE := false, Nodes := .ok [{ ProviderID := "gce://project/zone/node-1" }] } ""
      = .ok (.Custom {}) :=
  ⟨(NewProvider_first_match_wins _ _).1 rfl (by decide),
   (NewProvider_first_match_wins _ _).2.1 rfl rfl,
   (NewProvider_first_match_wins _ _).2.2.2.1 rfl _ rfl,
   ((NewProvider_first_match_wins _ _).2.2.2.2 rfl _ _ rfl).trans (if_pos (by decide)),
   ((NewProvider_first_match_wins _ _).2.2.2.2 rfl _ _ rfl).trans
     ((if_neg (by decide)).trans (if_pos (by decide))),
   ((NewProvider_first_match_wins _ _).2.2.2.2 rfl _ _ rfl).trans
     ((if_neg (by decide)).trans (if_neg (by decide)))⟩

/-! ## Lemmas on the cluster metadata store -/

/-- A lookup on a reachable server whose table exists returns what the scan of
the matching rows gives, and sends the one query. -/
theorem GetClusterMeta_of_table (db : ClusterDB) (cluster_id : String)
    (rows : List (String × Option String))
    (hopen : db.openFails = false) (havail : db.unavailable db.log.length = false)
    (htable : db.names = some rows) :
    GetClusterMeta db cluster_id =
      (db.send (.select cluster_id),
        match scanRows (rows.filter (fun row => row.1 = cluster_id)) ("", "") with
        | .error err => .error err
        | .ok found => .ok found) := by
  simp only [GetClusterMeta, hopen, havail, htable, Bool.false_eq_true, if_false]
  cases scanRows (rows.filter (fun row => row.1 = cluster_id)) ("", "") <;> rfl

/-- A call of `CreateClusterMeta` on a reachable server whose table exists and
holds no row for the identifier appends the row and returns nil. -/
theorem CreateClusterMeta_of_absent (db : ClusterDB) (cluster_id cluster_name : String)
    (rows : List (String × Option String))
    (hopen : db.openFails = false) (h1 : db.unavailable db.log.length = false)
    (h2 : db.unavailable (db.log.length + 1) = false)
    (htable : db.names = some rows) (hfresh : ∀ row ∈ rows, row.1 ≠ cluster_id) :
    CreateClusterMeta db cluster_id cluster_name =
      ({ db with names := some (rows ++ [(cluster_id, some cluster_name)])
                 log := db.log ++ [.createTable, .insert cluster_id cluster_name] }, none) := by
  have hany : rows.any (fun row => decide (row.1 = cluster_id)) = false := by
    rw [List.any_eq_false]
    intro row hrow
    simpa using hfresh row hrow
  simp [CreateClusterMeta, ClusterDB.send, hopen, h1, h2, htable, hany]

/-- A call of `CreateClusterMeta` that returns nil leaves a table that holds a
row for the identifier, on the same server. -/
theorem CreateClusterMeta_ok {db : ClusterDB} {cluster_id cluster_name : String}
    (h : (CreateClusterMeta db cluster_id cluster_name).2 = none) :
    (CreateClusterMeta db cluster_id cluster_name).1.openFails = false ∧
    (CreateClusterMeta db cluster_id cluster_name).1.unavailable = db.unavailable ∧
    (CreateClusterMeta db cluster_id cluster_name).1.log
      = db.log ++ [.createTable, .insert cluster_id cluster_name] ∧
    ∃ rows, (CreateClusterMeta db cluster_id cluster_name).1.names = some rows ∧
      rows.any (fun row => row.1 = cluster_id) = true := by
  unfold CreateClusterMeta at h ⊢
  simp only [ClusterDB.send, List.length_append, List.length_singleton] at h ⊢
  by_cases hopen : db.openFails = true
  · simp [hopen] at h
  · by_cases h1 : db.unavailable db.log.length = true
    · simp [hopen, h1] at h
    · by_cases h2 : db.unavailable (db.log.length + 1) = true
      · simp [hopen, h1, h2] at h
      · by_cases hany : (match db.names with
            | none => []
            | some rows => rows).any (fun row => decide (row.1 = cluster_id)) = true
        · simp [hopen, h1, h2, hany] at h
        · simp only [hopen, h1, h2, hany, Bool.false_eq_true, if_false]
          simp

theorem filter_id_of_fresh (rows : List (String × Option String)) (cluster_id : String)
    (hfresh : ∀ row ∈ rows, row.1 ≠ cluster_id) :
    rows.filter (fun row => decide (row.1 = cluster_id)) = [] := by
  induction rows with
  | nil => rfl
  | cons row rows ih =>
    have h1 : row.1 ≠ cluster_id := hfresh row (List.mem_cons_self _ _)
    have h2 := ih (fun r hr => hfresh r (List.mem_cons_of_mem _ hr))
    simp [List.filter_cons, h1, h2]

/-- Get-or-create on a reachable server whose table holds no row for the
identifier: one query, one `CREATE TABLE`, one insert; the row is appended and
the empty identifier and name that were looked up are returned. -/
theorem GetOrCreateClusterMeta_of_absent (db : ClusterDB) (cluster_id cluster_name : String)
    (rows : List (String × Option String))
    (hopen : db.openFails = false) (havail : ∀ i, db.unavailable i = false)
    (htable : db.names = some rows) (hfresh : ∀ row ∈ rows, row.1 ≠ cluster_id) :
    GetOrCreateClusterMeta db cluster_id cluster_name =
      ({ db with names := some (rows ++ [(cluster_id, some cluster_name)])
                 log := db.log ++ [.select cluster_id, .createTable,
                                   .insert cluster_id cluster_name] }, .ok ("", "")) := by
  have hlook := GetClusterMeta_of_table db cluster_id rows hopen (havail _) htable
  rw [filter_id_of_fresh rows cluster_id hfresh] at hlook
  have hcreate := CreateClusterMeta_of_absent (db.send (.select cluster_id)) cluster_id
    cluster_name rows hopen (havail _) (havail _) htable hfresh
  simp only [GetOrCreateClusterMeta, hlook, scanRows, Bool.false_eq_true, if_false, if_true,
    hcreate]
  simp [ClusterDB.send]

/-- Get-or-create on a reachable server whose table holds exactly one row for
the non-empty identifier: one query and nothing else; the stored identifier and
name are returned and the name passed in is not used. -/
theorem GetOrCreateClusterMeta_of_present (db : ClusterDB) (cluster_id cluster_name : String)
    (rows : List (String × Option String)) (stored : String)
    (hopen : db.openFails = false) (havail : ∀ i, db.unavailable i = false)
    (htable : db.names = some rows)
    (hrow : rows.filter (fun row => decide (row.1 = cluster_id)) = [(cluster_id, some stored)])
    (hid : cluster_id ≠ "") :
    GetOrCreateClusterMeta db cluster_id cluster_name =
      (db.send (.select cluster_id), .ok (cluster_id, stored)) := by
  have hlook := GetClusterMeta_of_table db cluster_id rows hopen (havail _) htable
  rw [hrow] at hlook
  simp only [GetOrCreateClusterMeta, hlook, scanRows, Bool.false_eq_true, if_false, hid]

/-- A lookup that does not panic has sent the one query. -/
theorem GetClusterMeta_sent {db : ClusterDB} {cluster_id : String}
    (h : ∀ p, (GetClusterMeta db cluster_id).2 ≠ .panic p) :
    db.openFails = false ∧ (GetClusterMeta db cluster_id).1 = db.send (.select cluster_id) := by
  unfold GetClusterMeta at h ⊢
  by_cases hopen : db.openFails = true
  · simp [hopen] at h
  · simp only [hopen, Bool.false_eq_true, if_false]
    refine ⟨trivial, ?_⟩
    split
    · rfl
    · split
      · rfl
      · split <;> rfl

/-- Every call of `CreateClusterMeta` with a working handle sends the
`CREATE TABLE` statement once. -/
theorem createCalls_CreateClusterMeta (db : ClusterDB) (cluster_id cluster_name : String)
    (hopen : db.openFails = false) :
    createCalls (CreateClusterMeta db cluster_id cluster_name).1.log = createCalls db.log + 1 := by
  unfold CreateClusterMeta
  simp only [hopen, Bool.false_eq_true, if_false, ClusterDB.send]
  split
  · simp [createCalls, List.filter_append]
  · split
    · simp [createCalls, List.filter_append]
    · split <;> simp [createCalls, List.filter_append]

/-- A call of `CreateClusterMeta` for an identifier the table already holds
returns an error. -/
theorem CreateClusterMeta_of_present (db : ClusterDB) (cluster_id cluster_name : String)
    (rows : List (String × Option String)) (hopen : db.openFails = false)
    (htable : db.names = some rows)
    (hany : rows.any (fun row => decide (row.1 = cluster_id)) = true) :
    ∃ err, (CreateClusterMeta db cluster_id cluster_name).2 = some err := by
  unfold CreateClusterMeta
  simp only [hopen, Bool.false_eq_true, if_false, ClusterDB.send, htable, hany, if_true]
  split
  · exact ⟨_, rfl⟩
  · split <;> exact ⟨_, rfl⟩

/-- The defect in general: whenever the lookup returns an error,
`GetOrCreateClusterMeta` returns an error, also when its first call of
`CreateClusterMeta` has inserted the record; in that case it has called
`CreateClusterMeta` twice. -/
theorem GetOrCreateClusterMeta_of_lookup_error (db : ClusterDB) (cluster_id cluster_name : String)
    (e : GoError) (hlook : (GetClusterMeta db cluster_id).2 = .error e) :
    (∃ err, (GetOrCreateClusterMeta db cluster_id cluster_name).2 = .error err) ∧
    ((CreateClusterMeta (GetClusterMeta db cluster_id).1 cluster_id cluster_name).2 = none →
      createCalls (GetOrCreateClusterMeta db cluster_id cluster_name).1.log
        = createCalls db.log + 2) := by
  obtain ⟨hopen, hsent⟩ := @GetClusterMeta_sent db cluster_id
    (fun p hp => by rw [hlook] at hp; cases hp)
  have hpair : GetClusterMeta db cluster_id = (db.send (.select cluster_id), .error e) := by
    rw [← hsent, ← hlook]
  simp only [GetOrCreateClusterMeta, hpair, if_true]
  cases h1 : (CreateClusterMeta (db.send (.select cluster_id)) cluster_id cluster_name).2 with
  | some err =>
    have hp : CreateClusterMeta (db.send (.select cluster_id)) cluster_id cluster_name
        = ((CreateClusterMeta (db.send (.select cluster_id)) cluster_id cluster_name).1,
            some err) := by rw [← h1]
    rw [hp]
    exact ⟨⟨err, rfl⟩, fun h => by cases h⟩
  | none =>
    have hp : CreateClusterMeta (db.send (.select cluster_id)) cluster_id cluster_name
        = ((CreateClusterMeta (db.send (.select cluster_id)) cluster_id cluster_name).1,
            none) := by rw [← h1]
    obtain ⟨hopen2, -, -, rows, hrows, hany⟩ := CreateClusterMeta_ok h1
    obtain ⟨err, herr⟩ := CreateClusterMeta_of_present
      (CreateClusterMeta (db.send (.select cluster_id)) cluster_id cluster_name).1
      cluster_id cluster_name rows hopen2 hrows hany
    have hp2 : CreateClusterMeta
        (CreateClusterMeta (db.send (.select cluster_id)) cluster_id cluster_name).1
        cluster_id cluster_name
        = ((CreateClusterMeta
            (CreateClusterMeta (db.send (.select cluster_id)) cluster_id cluster_name).1
            cluster_id cluster_name).1, some err) := by rw [← herr]
    rw [hp]
    simp only
    rw [hp2]
    refine ⟨⟨err, rfl⟩, fun _ => ?_⟩
    simp only
    rw [createCalls_CreateClusterMeta _ _ _ hopen2,
      createCalls_CreateClusterMeta _ _ _ (by exact hopen)]
    simp [createCalls, ClusterDB.send, List.filter_append]

/-! ## C11: create if absent, never update on get -/

/-- C11.  On a store in which lookups succeed (reachable server, existing
table) and which holds no record for `c1`: `GetOrCreateClusterMeta` with `c1`
and `prod` returns without error, makes one insert, and leaves exactly one
record for `c1`, named `prod`, the other records being kept.  A following call
with `c1` and any name `n` sends the lookup and nothing else, returns the
stored record without error, and leaves the store with that single record
still named `prod`. -/
theorem C11_create_if_absent_never_update (db : ClusterDB)
    (rows : List (String × Option String)) (n : String)
    (hopen : db.openFails = false) (havail : ∀ i, db.unavailable i = false)
    (htable : db.names = some rows) (hfresh : ∀ row ∈ rows, row.1 ≠ "c1") :
    (GetOrCreateClusterMeta db "c1" "prod").2 = .ok ("", "") ∧
    (GetOrCreateClusterMeta db "c1" "prod").1.names = some (rows ++ [("c1", some "prod")]) ∧
    (rows ++ [("c1", some "prod")]).filter (fun row => decide (row.1 = "c1"))
      = [("c1", some "prod")] ∧
    insertAttempts (GetOrCreateClusterMeta db "c1" "prod").1.log = insertAttempts db.log + 1 ∧
    (GetOrCreateClusterMeta (GetOrCreateClusterMeta db "c1" "prod").1 "c1" n).2
      = .ok ("c1", "prod") ∧
    (GetOrCreateClusterMeta (GetOrCreateClusterMeta db "c1" "prod").1 "c1" n).1.names
      = some (rows ++ [("c1", some "prod")]) ∧
    (GetOrCreateClusterMeta (GetOrCreateClusterMeta db "c1" "prod").1 "c1" n).1.log
      = (GetOrCreateClusterMeta db "c1" "prod").1.log ++ [.select "c1"] ∧
    insertAttempts (GetOrCreateClusterMeta (GetOrCreateClusterMeta db "c1" "prod").1 "c1" n).1.log
      = insertAttempts (GetOrCreateClusterMeta db "c1" "prod").1.log := by
  have hfilter : (rows ++ [("c1", some "prod")]).filter (fun row => decide (row.1 = "c1"))
      = [("c1", some "prod")] := by
    rw [List.filter_append, filter_id_of_fresh rows "c1" hfresh]
    rfl
  have h1 := GetOrCreateClusterMeta_of_absent db "c1" "prod" rows hopen havail htable hfresh
  have h2 := GetOrCreateClusterMeta_of_present (GetOrCreateClusterMeta db "c1" "prod").1 "c1" n
    (rows ++ [("c1", some "prod")]) "prod" (by rw [h1]; exact hopen)
    (by rw [h1]; exact havail) (by rw [h1]) hfilter (by decide)
  refine ⟨by rw [h1], by rw [h1], hfilter, ?_, by rw [h2], ?_, by rw [h2]; rfl, ?_⟩
  · rw [h1]
    simp [insertAttempts, List.filter_append]
  · rw [h2]
    simp only [ClusterDB.send]
    rw [h1]
  · rw [h2]
    simp [insertAttempts, List.filter_append, ClusterDB.send]

/-- C11, witness: the table holds a record for another cluster; the second
call passes the name `dev`. -/
theorem C11_create_if_absent_never_update_witness :
    otherClusterDB.openFails = false ∧
    otherClusterDB.names = some [("c0", some "staging")] ∧
    (GetOrCreateClusterMeta otherClusterDB "c1" "prod").1.names
      = some [("c0", some "staging"), ("c1", some "prod")] ∧
    (GetOrCreateClusterMeta (GetOrCreateClusterMeta otherClusterDB "c1" "prod").1 "c1" "dev").2
      = .ok ("c1", "prod") ∧
    (GetOrCreateClusterMeta (GetOrCreateClusterMeta otherClusterDB "c1" "prod").1 "c1" "dev").1.names
      = some [("c0", some "staging"), ("c1", some "prod")] ∧
    (GetOrCreateClusterMeta (GetOrCreateClusterMeta otherClusterDB "c1" "prod").1 "c1" "dev").1.log
      = [.select "c1", .createTable, .insert "c1" "prod", .select "c1"] :=
  ⟨rfl, rfl,
   (C11_create_if_absent_never_update otherClusterDB [("c0", some "staging")] "dev" rfl
      (fun _ => rfl) rfl (by decide)).2.1,
   (C11_create_if_absent_never_update otherClusterDB [("c0", some "staging")] "dev" rfl
      (fun _ => rfl) rfl (by decide)).2.2.2.2.1,
   (C11_create_if_absent_never_update otherClusterDB [("c0", some "staging")] "dev" rfl
      (fun _ => rfl) rfl (by decide)).2.2.2.2.2.1,
   by decide⟩

/-! ## C13: the insert attempts of get-or-create -/

/-- C13, the code at the failing input.  The server is reachable and the table
does not exist yet, so the lookup returns an error.  The call of
`CreateClusterMeta` made from the first `if` succeeds and inserts the record;
the second `if` finds the identifier still empty and calls `CreateClusterMeta`
again, whose insert violates the primary key: two insert attempts are made
and `GetOrCreateClusterMeta` returns an error, the record being stored once.
The same happens when the table exists and the server rejects the query
alone. -/
theorem C13_lookup_error_inserts_twice :
    (GetClusterMeta freshDB "c1").2 = .error (.external "relation \"names\" does not exist") ∧
    (CreateClusterMeta (GetClusterMeta freshDB "c1").1 "c1" "prod").2 = none ∧
    (GetOrCreateClusterMeta freshDB "c1" "prod").2
      = .error (.external "duplicate key value violates unique constraint") ∧
    (GetOrCreateClusterMeta freshDB "c1" "prod").1.log
      = [.select "c1", .createTable, .insert "c1" "prod", .createTable, .insert "c1" "prod"] ∧
    insertAttempts (GetOrCreateClusterMeta freshDB "c1" "prod").1.log = 2 ∧
    (GetOrCreateClusterMeta freshDB "c1" "prod").1.names = some [("c1", some "prod")] ∧
    (GetClusterMeta lookupRejectedDB "c1").2 = .error (.external "query failed") ∧
    (GetOrCreateClusterMeta lookupRejectedDB "c1" "prod").2
      = .error (.external "duplicate key value violates unique constraint") ∧
    insertAttempts (GetOrCreateClusterMeta lookupRejectedDB "c1" "prod").1.log = 2 := by
  decide

/-- The part of C13 the code does fulfil: when the lookup succeeds with a
non-empty identifier, nothing but the query is sent and the record found is
returned; when it succeeds with an empty identifier, `CreateClusterMeta` is
called exactly once, and its error, if any, is returned. -/
theorem GetOrCreateClusterMeta_of_lookup_ok (db : ClusterDB) (cluster_id cluster_name : String)
    (found : String × String) (hlook : (GetClusterMeta db cluster_id).2 = .ok found) :
    (found.1 ≠ "" →
      GetOrCreateClusterMeta db cluster_id cluster_name
        = (db.send (.select cluster_id), .ok found)) ∧
    (found.1 = "" →
      (GetOrCreateClusterMeta db cluster_id cluster_name).1
        = (CreateClusterMeta (db.send (.select cluster_id)) cluster_id cluster_name).1 ∧
      createCalls (GetOrCreateClusterMeta db cluster_id cluster_name).1.log
        = createCalls db.log + 1 ∧
      ((CreateClusterMeta (db.send (.select cluster_id)) cluster_id cluster_name).2 = none →
        (GetOrCreateClusterMeta db cluster_id cluster_name).2 = .ok found)) := by
  obtain ⟨hopen, hsent⟩ := @GetClusterMeta_sent db cluster_id
    (fun p hp => by rw [hlook] at hp; cases hp)
  have hpair : GetClusterMeta db cluster_id = (db.send (.select cluster_id), .ok found) := by
    rw [← hsent, ← hlook]
  refine ⟨fun hne => ?_, fun hempty => ?_⟩
  · simp only [GetOrCreateClusterMeta, hpair, Bool.false_eq_true, if_false, hne]
  · have hstate : (GetOrCreateClusterMeta db cluster_id cluster_name).1
        = (CreateClusterMeta (db.send (.select cluster_id)) cluster_id cluster_name).1 := by
      simp only [GetOrCreateClusterMeta, hpair, Bool.false_eq_true, if_false, hempty, if_true]
      cases h1 : (CreateClusterMeta (db.send (.select cluster_id)) cluster_id cluster_name).2 with
      | some err =>
        have hp : CreateClusterMeta (db.send (.select cluster_id)) cluster_id cluster_name
            = ((CreateClusterMeta (db.send (.select cluster_id)) cluster_id cluster_name).1,
                some err) := by rw [← h1]
        rw [hp]
      | none =>
        have hp : CreateClusterMeta (db.send (.select cluster_id)) cluster_id cluster_name
            = ((CreateClusterMeta (db.send (.select cluster_id)) cluster_id cluster_name).1,
                none) := by rw [← h1]
        rw [hp]
    refine ⟨hstate, ?_, fun h1 => ?_⟩
    · rw [hstate, createCalls_CreateClusterMeta _ _ _ (by exact hopen)]
      simp [createCalls, ClusterDB.send, List.filter_append]
    · have hp : CreateClusterMeta (db.send (.select cluster_id)) cluster_id cluster_name
          = ((CreateClusterMeta (db.send (.select cluster_id)) cluster_id cluster_name).1,
              none) := by rw [← h1]
      simp only [GetOrCreateClusterMeta, hpair, Bool.false_eq_true, if_false, hempty, if_true]
      rw [hp]
      cases found
      simp only at hempty
      simp [hempty]

/-! ## C12: the record behind volume prices -/

theorem default_path_ne (st : Storage) : st.path ++ "default" ≠ st.path ++ "default.json" := by
  intro h
  have := congrArg String.length h
  simp only [String.length_append] at this
  have h1 : ("default" : String).length = 7 := by decide
  have h2 : ("default.json" : String).length = 12 := by decide
  omega

/-- The defect in general: what `PVPricing` returns does not depend on the
contents of the config file `default.json`, the file that `GetConfig`,
`UpdateConfig` and `DownloadPricingData` use. -/
theorem PVPricing_ignores_config_file (c : CustomProvider) (st : Storage) (d : FileData)
    (pvk : PVKey) :
    pvCost (c.PVPricing (st.write (st.path ++ "default.json") d) pvk).2
      = pvCost (c.PVPricing st pvk).2 := by
  have hfiles : (st.write (st.path ++ "default.json") d).files (st.path ++ "default")
      = st.files (st.path ++ "default") := by
    simp only [Storage.write, default_path_ne st, if_false]
  have hwf : (st.write (st.path ++ "default.json") d).writeFails = st.writeFails := rfl
  simp only [CustomProvider.PVPricing, GetDefaultPricingData, Storage.path_write, hfiles, hwf]
  cases st.files (st.path ++ "default") with
  | data d' =>
    simp only
    cases Unmarshal d' <;> rfl
  | unreadable => rfl
  | statFails => rfl
  | absent =>
    simp only
    by_cases hw : st.writeFails (st.path ++ "default") = true
    · simp only [hw, if_true]
    · simp only [hw, Bool.false_eq_true, if_false]

/-- C12, the code at the failing input.  On an empty storage `UpdateConfig`
sets `storage` to `0.1` and succeeds; `GetConfig` then returns a record with
the storage price `0.1`.  `PVPricing`, called right after, loads the file named
`default` instead of `default.json`: it finds none, creates it with the default
record, and returns the default storage price as cost. -/
theorem C12_pv_pricing_reads_other_file :
    (({} : CustomProvider).UpdateConfig plainTable freshStorage (.ok [("storage", "0.1")]) "").2.2
      = .ok { defaultPricing "default.json" with Storage := "0.1" } ∧
    (CustomProvider.GetConfig
        (({} : CustomProvider).UpdateConfig plainTable freshStorage (.ok [("storage", "0.1")]) "").2.1
        (({} : CustomProvider).UpdateConfig plainTable freshStorage (.ok [("storage", "0.1")]) "").1).2
      = .ok { defaultPricing "default.json" with Storage := "0.1" } ∧
    pvCost (CustomProvider.PVPricing
        (({} : CustomProvider).UpdateConfig plainTable freshStorage (.ok [("storage", "0.1")]) "").2.1
        (({} : CustomProvider).UpdateConfig plainTable freshStorage (.ok [("storage", "0.1")]) "").1
        { Features := "", GetStorageClass := "standard" }).2
      = .ok "0.00005479452" ∧
    (({} : CustomProvider).UpdateConfig plainTable freshStorage (.ok [("storage", "0.1")]) "").1.files
        "/models/default" = .absent ∧
    (CustomProvider.PVPricing
        (({} : CustomProvider).UpdateConfig plainTable freshStorage (.ok [("storage", "0.1")]) "").2.1
        (({} : CustomProvider).UpdateConfig plainTable freshStorage (.ok [("storage", "0.1")]) "").1
        { Features := "", GetStorageClass := "standard" }).1.files "/models/default"
      = .data (Marshal (defaultPricing "default")) := by
  decide

/-! ## C14: the refresh that follows a patch -/

/-- A call of `UpdateConfig` that returns a record has loaded the old record,
run the patch loop to the returned record, written its JSON form to the config
file and refreshed the cache from the storage so written. -/
theorem UpdateConfig_ok_inv {cprov : CustomProvider} {tbl : TitleTable} {st : Storage}
    {a : Except GoError (List (String × String))} {updateType : String} {r' : CustomPricing}
    (hok : (cprov.UpdateConfig tbl st a updateType).2.2 = .ok r') :
    ∃ st1 r entries, GetDefaultPricingData st "default.json" = (st1, .ok r) ∧
      a = .ok entries ∧ patchLoop tbl r entries = .ok r' ∧
      st.writeFails (st.path ++ "default.json") = false := by
  rcases hl : GetDefaultPricingData st "default.json" with ⟨st1, res⟩
  cases res with
  | error err => simp [CustomProvider.UpdateConfig, hl] at hok
  | ok r =>
    obtain ⟨hpath, hwf, -⟩ := GetDefaultPricingData_ok_files hl
    cases a with
    | error err => simp [CustomProvider.UpdateConfig, hl] at hok
    | ok entries =>
      cases hloop : patchLoop tbl r entries with
      | error err => simp [CustomProvider.UpdateConfig, hl, hloop] at hok
      | ok c' =>
        by_cases hw : st1.writeFails (st1.path ++ "default.json") = true
        · simp [CustomProvider.UpdateConfig, hl, hloop, hw] at hok
        · simp only [CustomProvider.UpdateConfig, hl, hloop, hw, Bool.false_eq_true, if_false,
            Except.ok.injEq] at hok
          subst hok
          refine ⟨st1, r, entries, rfl, rfl, hloop, ?_⟩
          rw [← hwf, ← hpath]
          exact Bool.eq_false_iff.mpr hw

/-- C14.  When `UpdateConfig` returns the record `r'`, the config file holds
the JSON form of `r'`, the refresh has run and its reload of that file has
succeeded, and the cache entries `default`, `default,spot` and `default,gpu`
are the ones built from `r'`; the label names of the provider are those of
`r'` as well.  In particular, after a successful patch that sets `CPU` to `c`
and nothing else, the CPU price of the `default` entry is `c`. -/
theorem C14_refresh_completed_on_return (cprov : CustomProvider) (tbl : TitleTable)
    (st : Storage)
    (a : Except GoError (List (String × String))) (updateType : String) (r' : CustomPricing)
    (hok : (cprov.UpdateConfig tbl st a updateType).2.2 = .ok r') :
    (cprov.UpdateConfig tbl st a updateType).1.files (st.path ++ "default.json")
      = .data (Marshal r') ∧
    (GetDefaultPricingData (cprov.UpdateConfig tbl st a updateType).1 "default.json").2 = .ok r' ∧
    (cprov.UpdateConfig tbl st a updateType).2.1.entry "default"
      = some { CPU := r'.CPU, RAM := r'.RAM, GPU := "" } ∧
    (cprov.UpdateConfig tbl st a updateType).2.1.entry "default,spot"
      = some { CPU := r'.SpotCPU, RAM := r'.SpotRAM, GPU := "" } ∧
    (cprov.UpdateConfig tbl st a updateType).2.1.entry "default,gpu"
      = some { CPU := r'.CPU, RAM := r'.RAM, GPU := r'.GPU } ∧
    (cprov.UpdateConfig tbl st a updateType).2.1.SpotLabel = r'.SpotLabel ∧
    (cprov.UpdateConfig tbl st a updateType).2.1.SpotLabelValue = r'.SpotLabelValue ∧
    (∀ c, a = .ok [("CPU", c)] →
      (cprov.UpdateConfig tbl st a updateType).2.1.entry "default"
        = some { CPU := c, RAM := r'.RAM, GPU := "" }) := by
  obtain ⟨st1, r, entries, hload, ha, hloop, hwrite⟩ := UpdateConfig_ok_inv hok
  subst ha
  obtain ⟨-, hst, hprov⟩ := UpdateConfig_of_patch_ok cprov updateType hload hloop hwrite
  obtain ⟨hpath, -, -⟩ := GetDefaultPricingData_ok_files hload
  have hfile : (st1.write (st.path ++ "default.json") (Marshal r')).files
      (st.path ++ "default.json") = .data (Marshal r') := Storage.files_write_same _ _ _
  have hreload : GetDefaultPricingData (st1.write (st.path ++ "default.json") (Marshal r'))
      "default.json" = (st1.write (st.path ++ "default.json") (Marshal r'), .ok r') :=
    GetDefaultPricingData_of_data _ _ _ (by rw [Storage.path_write, hpath, hfile])
  obtain ⟨-, -, hl1, hl2, -, -, hentry⟩ := DownloadPricingData_of_load cprov hreload
  have hd : (cprov.UpdateConfig tbl st (.ok entries) updateType).2.1.entry "default"
      = some { CPU := r'.CPU, RAM := r'.RAM, GPU := "" } := by
    rw [hprov, hentry]; simp only [String.reduceEq, if_false, if_true]
  refine ⟨by rw [hst, hfile], by rw [hst, hreload], hd, ?_, ?_, by rw [hprov, hl1],
    by rw [hprov, hl2], ?_⟩
  · rw [hprov, hentry]; simp only [String.reduceEq, if_false, if_true]
  · rw [hprov, hentry]; simp only [if_true]
  · intro c hc
    simp only [Except.ok.injEq] at hc
    subst hc
    have hT : fieldByName (Title tbl "CPU") = some .CPU := by
      rw [Title_of_ascii tbl plainTable "CPU" (by decide)]
      decide
    simp only [patchLoop, SetCustomPricingField, hT, Except.ok.injEq] at hloop
    rw [hd, ← hloop]
    rfl

/-- C14, witness: on an empty storage a patch sets `CPU` to `0.05`. -/
theorem C14_refresh_completed_on_return_witness :
    (({} : CustomProvider).UpdateConfig plainTable freshStorage (.ok [("CPU", "0.05")]) "").2.2
      = .ok { defaultPricing "default.json" with CPU := "0.05" } ∧
    (({} : CustomProvider).UpdateConfig plainTable freshStorage (.ok [("CPU", "0.05")]) "").2.1.entry "default"
      = some { CPU := "0.05", RAM := "0.004237", GPU := "" } ∧
    (({} : CustomProvider).UpdateConfig plainTable freshStorage (.ok [("CPU", "0.05")]) "").2.1.entry
        "default,gpu"
      = some { CPU := "0.05", RAM := "0.004237", GPU := "0.95" } :=
  ⟨by decide,
   (C14_refresh_completed_on_return {} plainTable freshStorage (.ok [("CPU", "0.05")]) ""
      { defaultPricing "default.json" with CPU := "0.05" } (by decide)).2.2.2.2.2.2.2
      "0.05" rfl,
   (C14_refresh_completed_on_return {} plainTable freshStorage (.ok [("CPU", "0.05")]) ""
      { defaultPricing "default.json" with CPU := "0.05" } (by decide)).2.2.2.2.1⟩

end CostModel
